import Mathlib

/-!
Verification of the node-utility module of libpg_query
(src/postgres/src_backend_nodes_nodeFuncs.c) and its bridging header
(src/pg_query_internal.h).

The development is a shallow embedding of the three functions the file
provides: `exprLocation`, `leftmostLoc` and `raw_expression_tree_walker_impl`.

Embedding conventions, matching the C memory representation:
* every node-pointer field (`Node *`, `RangeVar *`, `List *`, ...) becomes an
  `Option Node`; the C `NULL` (which is also `NIL`, the empty list) is `none`;
* a non-empty `List` is a node of its own (`Node.list`), whose cells may hold
  null pointers, hence `List (Option Node)`;
* machine `int` location fields become `Int`;
* scalar payload fields that neither `exprLocation` nor the walker ever reads
  (operator names, type OIDs, etc.) are omitted, except where a claim is about
  them being skipped (e.g. `Alias.colnames`, `ColumnRef.fields`,
  `CommonTableExpr.search_clause`/`cycle_clause`, `SubLink.operName`);
* the walker's visitor callback is modelled in its canonical documented form
  (see the block comment before `expression_tree_walker` in the C source): on a
  child pointer it first checks `NULL`, then performs the caller's per-node
  visit, then recurses through `raw_expression_tree_walker`; the visitor's
  mutable `context` becomes an explicitly threaded state `σ`;
* `elog(NOTICE, "unrecognized node type: %d", ...)` becomes an explicitly
  threaded list of the tags that were reported.
-/

/-- NodeTag values of the node kinds that appear in `exprLocation` or in
`raw_expression_tree_walker_impl` (names follow the C `T_...` enum). -/
inductive Tag where
  | integerVal | floatVal | booleanVal | stringVal | bitString
  | paramRef | aConst | aStar | jsonFormat | setToDefault | currentOfExpr
  | sqlValueFunction | aliasNode
  | var | const | param | aggref | groupingFunc | windowFunc | tableFunc
  | subscriptingRef | funcExpr | namedArgExpr | opExpr | distinctExpr
  | nullIfExpr | scalarArrayOpExpr | boolExpr | subLink | fieldSelect
  | fieldStore | relabelType | coerceViaIo | arrayCoerceExpr
  | convertRowtypeExpr | collateExpr | caseExpr | caseWhen | arrayExpr
  | rowExpr | rowCompareExpr | coalesceExpr | minMaxExpr | xmlExpr
  | nullTest | booleanTest | coerceToDomain | coerceToDomainValue
  | targetEntry | placeHolderVar | inferenceElem
  | rangeVar | jsonReturning | jsonValueExpr | jsonConstructorExpr
  | jsonIsPredicate | joinExpr | intoClause | list
  | insertStmt | deleteStmt | updateStmt | mergeStmt | mergeWhenClause
  | selectStmt | plAssignStmt | aExpr | columnRef | funcCall
  | aIndices | aIndirection | aArrayExpr | resTarget | multiAssignRef
  | typeCast | collateClause | sortBy | windowDef | rangeSubselect
  | rangeFunction | rangeTableSample | rangeTableFunc | rangeTableFuncCol
  | typeName | columnDef | indexElem | groupingSet | lockingClause
  | xmlSerialize | withClause | inferClause | onConflictClause
  | commonTableExpr | jsonOutput | jsonKeyValue | jsonObjectConstructor
  | jsonArrayConstructor | jsonAggConstructor | jsonObjectAgg | jsonArrayAgg
  | jsonArrayQueryConstructor | cteSearchClause | cteCycleClause
  | constraint | functionParameter | partitionElem | partitionSpec
  | partitionBoundSpec | partitionRangeDatum
deriving DecidableEq, Repr

/-- Raw (and, for `exprLocation`, also post-analysis) parse-tree nodes: the
tagged-variant `Node` union restricted to the kinds the two functions
dispatch on.  Field names and their order follow the C struct declarations;
only fields read by `exprLocation`/the walker, plus the explicitly-skipped
fields named by the spec, are retained. -/
inductive Node where
  /-- T_Integer -/
  | integerVal (ival : Int)
  /-- T_Float -/
  | floatVal (fval : String)
  /-- T_Boolean -/
  | booleanVal (boolval : Bool)
  /-- T_String -/
  | stringVal (sval : String)
  /-- T_BitString -/
  | bitString (bsval : String)
  /-- T_ParamRef -/
  | paramRef (number : Int) (location : Int)
  /-- T_A_Const -/
  | aConst (isnull : Bool) (location : Int)
  /-- T_A_Star -/
  | aStar
  /-- T_JsonFormat -/
  | jsonFormat (location : Int)
  /-- T_SetToDefault -/
  | setToDefault (location : Int)
  /-- T_CurrentOfExpr -/
  | currentOfExpr (cursorName : String)
  /-- T_SQLValueFunction -/
  | sqlValueFunction (location : Int)
  /-- T_Alias (colnames is the explicitly-skipped column-name list) -/
  | aliasNode (aliasname : String) (colnames : Option Node)
  /-- T_Var -/
  | var (location : Int)
  /-- T_Const -/
  | const (location : Int)
  /-- T_Param -/
  | param (location : Int)
  /-- T_Aggref -/
  | aggref (location : Int)
  /-- T_GroupingFunc -/
  | groupingFunc (args : Option Node) (location : Int)
  /-- T_WindowFunc -/
  | windowFunc (location : Int)
  /-- T_TableFunc -/
  | tableFunc (location : Int)
  /-- T_SubscriptingRef -/
  | subscriptingRef (refexpr : Option Node)
  /-- T_FuncExpr -/
  | funcExpr (args : Option Node) (location : Int)
  /-- T_NamedArgExpr -/
  | namedArgExpr (arg : Option Node) (location : Int)
  /-- T_OpExpr -/
  | opExpr (args : Option Node) (location : Int)
  /-- T_DistinctExpr (struct-equivalent to OpExpr) -/
  | distinctExpr (args : Option Node) (location : Int)
  /-- T_NullIfExpr (struct-equivalent to OpExpr) -/
  | nullIfExpr (args : Option Node) (location : Int)
  /-- T_ScalarArrayOpExpr -/
  | scalarArrayOpExpr (args : Option Node) (location : Int)
  /-- T_BoolExpr -/
  | boolExpr (args : Option Node) (location : Int)
  /-- T_SubLink (operName is the explicitly-skipped operator-name list) -/
  | subLink (testexpr : Option Node) (operName : Option Node) (subselect : Option Node) (location : Int)
  /-- T_FieldSelect -/
  | fieldSelect (arg : Option Node)
  /-- T_FieldStore -/
  | fieldStore (arg : Option Node)
  /-- T_RelabelType -/
  | relabelType (arg : Option Node) (location : Int)
  /-- T_CoerceViaIO -/
  | coerceViaIo (arg : Option Node) (location : Int)
  /-- T_ArrayCoerceExpr -/
  | arrayCoerceExpr (arg : Option Node) (location : Int)
  /-- T_ConvertRowtypeExpr -/
  | convertRowtypeExpr (arg : Option Node) (location : Int)
  /-- T_CollateExpr -/
  | collateExpr (arg : Option Node)
  /-- T_CaseExpr (args is the List of CaseWhen nodes) -/
  | caseExpr (arg : Option Node) (args : Option Node) (defresult : Option Node) (location : Int)
  /-- T_CaseWhen -/
  | caseWhen (expr : Option Node) (result : Option Node) (location : Int)
  /-- T_ArrayExpr -/
  | arrayExpr (location : Int)
  /-- T_RowExpr -/
  | rowExpr (args : Option Node) (location : Int)
  /-- T_RowCompareExpr -/
  | rowCompareExpr (largs : Option Node)
  /-- T_CoalesceExpr -/
  | coalesceExpr (args : Option Node) (location : Int)
  /-- T_MinMaxExpr -/
  | minMaxExpr (args : Option Node) (location : Int)
  /-- T_XmlExpr -/
  | xmlExpr (namedArgs : Option Node) (args : Option Node) (location : Int)
  /-- T_NullTest -/
  | nullTest (arg : Option Node) (location : Int)
  /-- T_BooleanTest -/
  | booleanTest (arg : Option Node) (location : Int)
  /-- T_CoerceToDomain -/
  | coerceToDomain (arg : Option Node) (location : Int)
  /-- T_CoerceToDomainValue -/
  | coerceToDomainValue (location : Int)
  /-- T_TargetEntry -/
  | targetEntry (expr : Option Node)
  /-- T_PlaceHolderVar -/
  | placeHolderVar (phexpr : Option Node)
  /-- T_InferenceElem -/
  | inferenceElem (expr : Option Node)
  /-- T_RangeVar (al is the C field named alias) -/
  | rangeVar (al : Option Node) (location : Int)
  /-- T_JsonReturning -/
  | jsonReturning (format : Option Node)
  /-- T_JsonValueExpr -/
  | jsonValueExpr (rawExpr : Option Node) (formattedExpr : Option Node) (format : Option Node)
  /-- T_JsonConstructorExpr -/
  | jsonConstructorExpr (args : Option Node) (func : Option Node) (coercion : Option Node) (returning : Option Node) (location : Int)
  /-- T_JsonIsPredicate -/
  | jsonIsPredicate (expr : Option Node) (location : Int)
  /-- T_JoinExpr (al is the C field named alias; usingClause is skipped and omitted) -/
  | joinExpr (larg : Option Node) (rarg : Option Node) (quals : Option Node) (al : Option Node)
  /-- T_IntoClause -/
  | intoClause (rel : Option Node) (viewQuery : Option Node)
  /-- T_List; cells hold possibly-null node pointers -/
  | list (xs : List (Option Node))
  /-- T_InsertStmt -/
  | insertStmt (relation : Option Node) (cols : Option Node) (selectStmt : Option Node) (onConflictClause : Option Node) (returningList : Option Node) (withClause : Option Node)
  /-- T_DeleteStmt -/
  | deleteStmt (relation : Option Node) (usingClause : Option Node) (whereClause : Option Node) (returningList : Option Node) (withClause : Option Node)
  /-- T_UpdateStmt -/
  | updateStmt (relation : Option Node) (targetList : Option Node) (whereClause : Option Node) (fromClause : Option Node) (returningList : Option Node) (withClause : Option Node)
  /-- T_MergeStmt -/
  | mergeStmt (relation : Option Node) (sourceRelation : Option Node) (joinCondition : Option Node) (mergeWhenClauses : Option Node) (withClause : Option Node)
  /-- T_MergeWhenClause -/
  | mergeWhenClause (condition : Option Node) (targetList : Option Node) (values : Option Node)
  /-- T_SelectStmt -/
  | selectStmt (distinctClause : Option Node) (intoClause : Option Node) (targetList : Option Node) (fromClause : Option Node) (whereClause : Option Node) (groupClause : Option Node) (havingClause : Option Node) (windowClause : Option Node) (valuesLists : Option Node) (sortClause : Option Node) (limitOffset : Option Node) (limitCount : Option Node) (lockingClause : Option Node) (withClause : Option Node) (larg : Option Node) (rarg : Option Node)
  /-- T_PLAssignStmt -/
  | plAssignStmt (indirection : Option Node) (val : Option Node)
  /-- T_A_Expr (name list is skipped and omitted) -/
  | aExpr (lexpr : Option Node) (rexpr : Option Node) (location : Int)
  /-- T_ColumnRef (fields is the explicitly-skipped field list) -/
  | columnRef (fields : Option Node) (location : Int)
  /-- T_FuncCall -/
  | funcCall (args : Option Node) (aggOrder : Option Node) (aggFilter : Option Node) (over : Option Node) (location : Int)
  /-- T_A_Indices -/
  | aIndices (lidx : Option Node) (uidx : Option Node)
  /-- T_A_Indirection -/
  | aIndirection (arg : Option Node) (indirection : Option Node)
  /-- T_A_ArrayExpr -/
  | aArrayExpr (elements : Option Node) (location : Int)
  /-- T_ResTarget -/
  | resTarget (indirection : Option Node) (val : Option Node) (location : Int)
  /-- T_MultiAssignRef -/
  | multiAssignRef (source : Option Node)
  /-- T_TypeCast -/
  | typeCast (arg : Option Node) (typeName : Option Node) (location : Int)
  /-- T_CollateClause -/
  | collateClause (arg : Option Node)
  /-- T_SortBy -/
  | sortBy (node : Option Node)
  /-- T_WindowDef -/
  | windowDef (partitionClause : Option Node) (orderClause : Option Node) (startOffset : Option Node) (endOffset : Option Node) (location : Int)
  /-- T_RangeSubselect (al is the C field named alias) -/
  | rangeSubselect (subquery : Option Node) (al : Option Node)
  /-- T_RangeFunction (al is the C field named alias) -/
  | rangeFunction (functions : Option Node) (al : Option Node) (coldeflist : Option Node)
  /-- T_RangeTableSample -/
  | rangeTableSample (relation : Option Node) (args : Option Node) (repeatable : Option Node) (location : Int)
  /-- T_RangeTableFunc (al is the C field named alias) -/
  | rangeTableFunc (docexpr : Option Node) (rowexpr : Option Node) (namespaces : Option Node) (columns : Option Node) (al : Option Node)
  /-- T_RangeTableFuncCol -/
  | rangeTableFuncCol (colexpr : Option Node) (coldefexpr : Option Node)
  /-- T_TypeName -/
  | typeName (typmods : Option Node) (arrayBounds : Option Node) (location : Int)
  /-- T_ColumnDef -/
  | columnDef (typeName : Option Node) (rawDefault : Option Node) (collClause : Option Node) (location : Int)
  /-- T_IndexElem -/
  | indexElem (expr : Option Node)
  /-- T_GroupingSet -/
  | groupingSet (content : Option Node) (location : Int)
  /-- T_LockingClause -/
  | lockingClause (lockedRels : Option Node)
  /-- T_XmlSerialize -/
  | xmlSerialize (expr : Option Node) (typeName : Option Node) (location : Int)
  /-- T_WithClause -/
  | withClause (ctes : Option Node) (location : Int)
  /-- T_InferClause -/
  | inferClause (indexElems : Option Node) (whereClause : Option Node) (location : Int)
  /-- T_OnConflictClause -/
  | onConflictClause (infer : Option Node) (targetList : Option Node) (whereClause : Option Node) (location : Int)
  /-- T_CommonTableExpr (searchClause/cycleClause are the explicitly-skipped clauses) -/
  | commonTableExpr (ctequery : Option Node) (searchClause : Option Node) (cycleClause : Option Node) (location : Int)
  /-- T_JsonOutput -/
  | jsonOutput (typeName : Option Node) (returning : Option Node)
  /-- T_JsonKeyValue -/
  | jsonKeyValue (key : Option Node) (value : Option Node)
  /-- T_JsonObjectConstructor -/
  | jsonObjectConstructor (output : Option Node) (exprs : Option Node) (location : Int)
  /-- T_JsonArrayConstructor -/
  | jsonArrayConstructor (output : Option Node) (exprs : Option Node) (location : Int)
  /-- T_JsonAggConstructor -/
  | jsonAggConstructor (output : Option Node) (aggOrder : Option Node) (aggFilter : Option Node) (over : Option Node) (location : Int)
  /-- T_JsonObjectAgg (ctor is the C field named constructor) -/
  | jsonObjectAgg (ctor : Option Node) (arg : Option Node)
  /-- T_JsonArrayAgg (ctor is the C field named constructor) -/
  | jsonArrayAgg (ctor : Option Node) (arg : Option Node)
  /-- T_JsonArrayQueryConstructor -/
  | jsonArrayQueryConstructor (output : Option Node) (query : Option Node) (location : Int)
  /-- T_CTESearchClause -/
  | cteSearchClause (location : Int)
  /-- T_CTECycleClause -/
  | cteCycleClause (location : Int)
  /-- T_Constraint -/
  | constraint (location : Int)
  /-- T_FunctionParameter -/
  | functionParameter (argType : Option Node)
  /-- T_PartitionElem -/
  | partitionElem (location : Int)
  /-- T_PartitionSpec -/
  | partitionSpec (location : Int)
  /-- T_PartitionBoundSpec -/
  | partitionBoundSpec (location : Int)
  /-- T_PartitionRangeDatum -/
  | partitionRangeDatum (location : Int)

/-- nodeTag(node): the runtime tag of a node. -/
def nodeTag : Node → Tag
  | .integerVal _ => .integerVal
  | .floatVal _ => .floatVal
  | .booleanVal _ => .booleanVal
  | .stringVal _ => .stringVal
  | .bitString _ => .bitString
  | .paramRef _ _ => .paramRef
  | .aConst _ _ => .aConst
  | .aStar => .aStar
  | .jsonFormat _ => .jsonFormat
  | .setToDefault _ => .setToDefault
  | .currentOfExpr _ => .currentOfExpr
  | .sqlValueFunction _ => .sqlValueFunction
  | .aliasNode _ _ => .aliasNode
  | .var _ => .var
  | .const _ => .const
  | .param _ => .param
  | .aggref _ => .aggref
  | .groupingFunc _ _ => .groupingFunc
  | .windowFunc _ => .windowFunc
  | .tableFunc _ => .tableFunc
  | .subscriptingRef _ => .subscriptingRef
  | .funcExpr _ _ => .funcExpr
  | .namedArgExpr _ _ => .namedArgExpr
  | .opExpr _ _ => .opExpr
  | .distinctExpr _ _ => .distinctExpr
  | .nullIfExpr _ _ => .nullIfExpr
  | .scalarArrayOpExpr _ _ => .scalarArrayOpExpr
  | .boolExpr _ _ => .boolExpr
  | .subLink _ _ _ _ => .subLink
  | .fieldSelect _ => .fieldSelect
  | .fieldStore _ => .fieldStore
  | .relabelType _ _ => .relabelType
  | .coerceViaIo _ _ => .coerceViaIo
  | .arrayCoerceExpr _ _ => .arrayCoerceExpr
  | .convertRowtypeExpr _ _ => .convertRowtypeExpr
  | .collateExpr _ => .collateExpr
  | .caseExpr _ _ _ _ => .caseExpr
  | .caseWhen _ _ _ => .caseWhen
  | .arrayExpr _ => .arrayExpr
  | .rowExpr _ _ => .rowExpr
  | .rowCompareExpr _ => .rowCompareExpr
  | .coalesceExpr _ _ => .coalesceExpr
  | .minMaxExpr _ _ => .minMaxExpr
  | .xmlExpr _ _ _ => .xmlExpr
  | .nullTest _ _ => .nullTest
  | .booleanTest _ _ => .booleanTest
  | .coerceToDomain _ _ => .coerceToDomain
  | .coerceToDomainValue _ => .coerceToDomainValue
  | .targetEntry _ => .targetEntry
  | .placeHolderVar _ => .placeHolderVar
  | .inferenceElem _ => .inferenceElem
  | .rangeVar _ _ => .rangeVar
  | .jsonReturning _ => .jsonReturning
  | .jsonValueExpr _ _ _ => .jsonValueExpr
  | .jsonConstructorExpr _ _ _ _ _ => .jsonConstructorExpr
  | .jsonIsPredicate _ _ => .jsonIsPredicate
  | .joinExpr _ _ _ _ => .joinExpr
  | .intoClause _ _ => .intoClause
  | .list _ => .list
  | .insertStmt _ _ _ _ _ _ => .insertStmt
  | .deleteStmt _ _ _ _ _ => .deleteStmt
  | .updateStmt _ _ _ _ _ _ => .updateStmt
  | .mergeStmt _ _ _ _ _ => .mergeStmt
  | .mergeWhenClause _ _ _ => .mergeWhenClause
  | .selectStmt _ _ _ _ _ _ _ _ _ _ _ _ _ _ _ _ => .selectStmt
  | .plAssignStmt _ _ => .plAssignStmt
  | .aExpr _ _ _ => .aExpr
  | .columnRef _ _ => .columnRef
  | .funcCall _ _ _ _ _ => .funcCall
  | .aIndices _ _ => .aIndices
  | .aIndirection _ _ => .aIndirection
  | .aArrayExpr _ _ => .aArrayExpr
  | .resTarget _ _ _ => .resTarget
  | .multiAssignRef _ => .multiAssignRef
  | .typeCast _ _ _ => .typeCast
  | .collateClause _ => .collateClause
  | .sortBy _ => .sortBy
  | .windowDef _ _ _ _ _ => .windowDef
  | .rangeSubselect _ _ => .rangeSubselect
  | .rangeFunction _ _ _ => .rangeFunction
  | .rangeTableSample _ _ _ _ => .rangeTableSample
  | .rangeTableFunc _ _ _ _ _ => .rangeTableFunc
  | .rangeTableFuncCol _ _ => .rangeTableFuncCol
  | .typeName _ _ _ => .typeName
  | .columnDef _ _ _ _ => .columnDef
  | .indexElem _ => .indexElem
  | .groupingSet _ _ => .groupingSet
  | .lockingClause _ => .lockingClause
  | .xmlSerialize _ _ _ => .xmlSerialize
  | .withClause _ _ => .withClause
  | .inferClause _ _ _ => .inferClause
  | .onConflictClause _ _ _ _ => .onConflictClause
  | .commonTableExpr _ _ _ _ => .commonTableExpr
  | .jsonOutput _ _ => .jsonOutput
  | .jsonKeyValue _ _ => .jsonKeyValue
  | .jsonObjectConstructor _ _ _ => .jsonObjectConstructor
  | .jsonArrayConstructor _ _ _ => .jsonArrayConstructor
  | .jsonAggConstructor _ _ _ _ _ => .jsonAggConstructor
  | .jsonObjectAgg _ _ => .jsonObjectAgg
  | .jsonArrayAgg _ _ => .jsonArrayAgg
  | .jsonArrayQueryConstructor _ _ _ => .jsonArrayQueryConstructor
  | .cteSearchClause _ => .cteSearchClause
  | .cteCycleClause _ => .cteCycleClause
  | .constraint _ => .constraint
  | .functionParameter _ => .functionParameter
  | .partitionElem _ => .partitionElem
  | .partitionSpec _ => .partitionSpec
  | .partitionBoundSpec _ => .partitionBoundSpec
  | .partitionRangeDatum _ => .partitionRangeDatum

/-- leftmostLoc - support for exprLocation.
Take the minimum of two parse location values, but ignore unknowns. -/
def leftmostLoc (loc1 loc2 : Int) : Int :=
  if loc1 < 0 then loc2
  else if loc2 < 0 then loc1
  else min loc1 loc2

/-- Location field of the `TypeName` pointed to by `TypeCast.typeName`.  The C
code dereferences `tc->typeName->location` unconditionally (the grammar
always stores a TypeName there); for any other shape, which cannot arise and
would be undefined behavior in C, the model answers the unknown location. -/
def typeNameLocation : Option Node → Int
  | some (.typeName _ _ loc) => loc
  | _ => -1

mutual

/-- exprLocation - returns the parse location of an expression tree, for
error reports.  -1 is returned if the location cannot be determined.  Direct
translation of the C switch; the final wildcard is the C `default:` branch. -/
def exprLocation : Option Node → Int
  | none => -1
  | some n => exprLocationNode n

/-- The switch of exprLocation, dispatching on the tag of a non-null node. -/
def exprLocationNode : Node → Int
  | .rangeVar _ loc => loc
  | .tableFunc loc => loc
  | .var loc => loc
  | .const loc => loc
  | .param loc => loc
  -- Aggref: function name should always be the first thing
  | .aggref loc => loc
  | .groupingFunc _ loc => loc
  -- WindowFunc: function name should always be the first thing
  | .windowFunc loc => loc
  -- SubscriptingRef: just use container argument's location
  | .subscriptingRef refexpr => exprLocation refexpr
  -- FuncExpr: consider both function name and leftmost arg
  | .funcExpr args loc => leftmostLoc loc (exprLocation args)
  -- NamedArgExpr: consider both argument name and value
  | .namedArgExpr arg loc => leftmostLoc loc (exprLocation arg)
  -- OpExpr and struct-equivalents: consider both operator name and leftmost arg
  | .opExpr args loc => leftmostLoc loc (exprLocation args)
  | .distinctExpr args loc => leftmostLoc loc (exprLocation args)
  | .nullIfExpr args loc => leftmostLoc loc (exprLocation args)
  | .scalarArrayOpExpr args loc => leftmostLoc loc (exprLocation args)
  -- BoolExpr: same, to handle either NOT or AND/OR
  | .boolExpr args loc => leftmostLoc loc (exprLocation args)
  -- SubLink: check the testexpr, if any, and the operator/keyword
  | .subLink testexpr _ _ loc => leftmostLoc (exprLocation testexpr) loc
  -- FieldSelect/FieldStore: just use argument's location
  | .fieldSelect arg => exprLocation arg
  | .fieldStore arg => exprLocation arg
  | .relabelType arg loc => leftmostLoc loc (exprLocation arg)
  | .coerceViaIo arg loc => leftmostLoc loc (exprLocation arg)
  | .arrayCoerceExpr arg loc => leftmostLoc loc (exprLocation arg)
  | .convertRowtypeExpr arg loc => leftmostLoc loc (exprLocation arg)
  -- CollateExpr: just use argument's location
  | .collateExpr arg => exprLocation arg
  -- CaseExpr: CASE keyword should always be the first thing
  | .caseExpr _ _ _ loc => loc
  -- CaseWhen: WHEN keyword should always be the first thing
  | .caseWhen _ _ loc => loc
  -- ArrayExpr: the location points at ARRAY or [, which must be leftmost
  | .arrayExpr loc => loc
  -- RowExpr: the location points at ROW or (, which must be leftmost
  | .rowExpr _ loc => loc
  -- RowCompareExpr: just use leftmost argument's location
  | .rowCompareExpr largs => exprLocation largs
  -- CoalesceExpr/MinMaxExpr/SQLValueFunction: keyword is the first thing
  | .coalesceExpr _ loc => loc
  | .minMaxExpr _ loc => loc
  | .sqlValueFunction loc => loc
  -- XmlExpr: consider both function name and leftmost arg
  | .xmlExpr _ args loc => leftmostLoc loc (exprLocation args)
  | .jsonFormat loc => loc
  | .jsonValueExpr rawExpr _ _ => exprLocation rawExpr
  | .jsonConstructorExpr _ _ _ _ loc => loc
  | .jsonIsPredicate _ loc => loc
  | .nullTest arg loc => leftmostLoc loc (exprLocation arg)
  | .booleanTest arg loc => leftmostLoc loc (exprLocation arg)
  | .coerceToDomain arg loc => leftmostLoc loc (exprLocation arg)
  | .coerceToDomainValue loc => loc
  | .setToDefault loc => loc
  -- TargetEntry: just use argument's location
  | .targetEntry expr => exprLocation expr
  -- IntoClause: use the contained RangeVar's location --- close enough
  | .intoClause rel _ => exprLocation rel
  -- List: report location of first list member that has a location
  | .list xs => exprLocationList xs
  -- A_Expr: use leftmost of operator or left operand (if any);
  -- we assume right operand cannot be to left of operator
  | .aExpr lexpr _ loc => leftmostLoc loc (exprLocation lexpr)
  | .columnRef _ loc => loc
  | .paramRef _ loc => loc
  | .aConst _ loc => loc
  -- FuncCall: consider both function name and leftmost arg
  | .funcCall args _ _ _ loc => leftmostLoc loc (exprLocation args)
  -- A_ArrayExpr: the location points at ARRAY or [, which must be leftmost
  | .aArrayExpr _ loc => loc
  -- ResTarget: we need not examine the contained expression (if any)
  | .resTarget _ _ loc => loc
  | .multiAssignRef source => exprLocation source
  -- TypeCast: could represent CAST(), ::, or TypeName 'literal', so
  -- any of the components might be leftmost
  | .typeCast arg tn loc =>
      leftmostLoc (leftmostLoc (exprLocation arg) (typeNameLocation tn)) loc
  -- CollateClause: just use argument's location
  | .collateClause arg => exprLocation arg
  -- SortBy: just use argument's location (ignore operator, if any)
  | .sortBy nd => exprLocation nd
  | .windowDef _ _ _ _ loc => loc
  | .rangeTableSample _ _ _ loc => loc
  | .typeName _ _ loc => loc
  | .columnDef _ _ _ loc => loc
  | .constraint loc => loc
  -- FunctionParameter: just use typename's location
  | .functionParameter argType => exprLocation argType
  -- XmlSerialize: XMLSERIALIZE keyword should always be the first thing
  | .xmlSerialize _ _ loc => loc
  | .groupingSet _ loc => loc
  | .withClause _ loc => loc
  | .inferClause _ _ loc => loc
  | .onConflictClause _ _ _ loc => loc
  | .cteSearchClause loc => loc
  | .cteCycleClause loc => loc
  | .commonTableExpr _ _ _ loc => loc
  -- JsonKeyValue: just use the key's location
  | .jsonKeyValue key _ => exprLocation key
  | .jsonObjectConstructor _ _ loc => loc
  | .jsonArrayConstructor _ _ loc => loc
  | .jsonArrayQueryConstructor _ _ loc => loc
  | .jsonAggConstructor _ _ _ _ loc => loc
  | .jsonObjectAgg ctor _ => exprLocation ctor
  | .jsonArrayAgg ctor _ => exprLocation ctor
  -- PlaceHolderVar: just use argument's location
  | .placeHolderVar phexpr => exprLocation phexpr
  -- InferenceElem: just use nested expr's location
  | .inferenceElem expr => exprLocation expr
  | .partitionElem loc => loc
  | .partitionSpec loc => loc
  | .partitionBoundSpec loc => loc
  | .partitionRangeDatum loc => loc
  -- default: for any other node type it's just unknown
  | _ => -1

/-- The T_List arm of exprLocation: `loc = -1; foreach(lc, list) { loc =
exprLocation(lfirst(lc)); if (loc >= 0) break; }` - the loop keeps the last
assigned value when it never breaks. -/
def exprLocationList : List (Option Node) → Int
  | [] => -1
  | x :: rest =>
    if 0 ≤ exprLocation x then exprLocation x
    else
      match rest with
      | [] => exprLocation x
      | _ :: _ => exprLocationList rest

end

/-- Early-return sequencing of the walker: `orStop r k` is the C pattern
`if (WALK(f)) return true;` followed by the rest of the case body `k`,
where `r` is the WALK result and the visitor state / notice log thread
through. -/
def orStop {σ : Type} (r : Bool × σ × List Tag) (k : σ → List Tag → Bool × σ × List Tag) :
    Bool × σ × List Tag :=
  match r with
  | (true, s, log) => (true, s, log)
  | (false, s, log) => k s log

mutual

/-- raw_expression_tree_walker_impl --- walk raw parse trees.
The walker (visitor) has already visited the current node, and so we need
only recurse into any sub-nodes it has.  Direct translation of the C switch;
`WALK(f)` is `walkChild v f`, sequential WALK-and-return-true chains are
nested `orStop`, and the final wildcard is the C `default:` branch, patched
in this repository to `elog(NOTICE, "unrecognized node type: %d", ...)`
followed by `break` instead of terminating. -/
def raw_expression_tree_walker_impl {σ : Type} (v : Node → σ → Bool × σ) :
    Node → σ → List Tag → Bool × σ × List Tag
  -- primitive node types with no subnodes
  | .jsonFormat _, s, log => (false, s, log)
  | .setToDefault _, s, log => (false, s, log)
  | .currentOfExpr _, s, log => (false, s, log)
  | .sqlValueFunction _, s, log => (false, s, log)
  | .integerVal _, s, log => (false, s, log)
  | .floatVal _, s, log => (false, s, log)
  | .booleanVal _, s, log => (false, s, log)
  | .stringVal _, s, log => (false, s, log)
  | .bitString _, s, log => (false, s, log)
  | .paramRef _ _, s, log => (false, s, log)
  | .aConst _ _, s, log => (false, s, log)
  | .aStar, s, log => (false, s, log)
  -- Alias: we assume the colnames list isn't interesting
  | .aliasNode _ _, s, log => (false, s, log)
  | .rangeVar al _, s, log => walkChild v al s log
  | .groupingFunc args _, s, log => walkChild v args s log
  -- SubLink: we assume the operName is not interesting
  | .subLink testexpr _ subselect _, s, log =>
    orStop (walkChild v testexpr s log) fun s log =>
    walkChild v subselect s log
  -- CaseExpr: we assume walker doesn't care about CaseWhens, either
  | .caseExpr arg args defresult _, s, log =>
    orStop (walkChild v arg s log) fun s log =>
    orStop (walkWhens v args s log) fun s log =>
    walkChild v defresult s log
  -- RowExpr: assume colnames isn't interesting
  | .rowExpr args _, s, log => walkChild v args s log
  | .coalesceExpr args _, s, log => walkChild v args s log
  | .minMaxExpr args _, s, log => walkChild v args s log
  -- XmlExpr: we assume walker doesn't care about arg_names
  | .xmlExpr namedArgs args _, s, log =>
    orStop (walkChild v namedArgs s log) fun s log =>
    walkChild v args s log
  | .jsonReturning format, s, log => walkChild v format s log
  | .jsonValueExpr rawExpr formattedExpr format, s, log =>
    orStop (walkChild v rawExpr s log) fun s log =>
    orStop (walkChild v formattedExpr s log) fun s log =>
    walkChild v format s log
  | .jsonConstructorExpr args func coercion returning _, s, log =>
    orStop (walkChild v args s log) fun s log =>
    orStop (walkChild v func s log) fun s log =>
    orStop (walkChild v coercion s log) fun s log =>
    walkChild v returning s log
  | .jsonIsPredicate expr _, s, log => walkChild v expr s log
  | .nullTest arg _, s, log => walkChild v arg s log
  | .booleanTest arg _, s, log => walkChild v arg s log
  -- JoinExpr: using list is deemed uninteresting
  | .joinExpr larg rarg quals al, s, log =>
    orStop (walkChild v larg s log) fun s log =>
    orStop (walkChild v rarg s log) fun s log =>
    orStop (walkChild v quals s log) fun s log =>
    walkChild v al s log
  -- IntoClause: colNames, options are deemed uninteresting;
  -- viewQuery should be null in raw parsetree, but check it
  | .intoClause rel viewQuery, s, log =>
    orStop (walkChild v rel s log) fun s log =>
    walkChild v viewQuery s log
  | .list xs, s, log => walkMembers v xs s log
  | .insertStmt relation cols selectStmt onConflictClause returningList withClause, s, log =>
    orStop (walkChild v relation s log) fun s log =>
    orStop (walkChild v cols s log) fun s log =>
    orStop (walkChild v selectStmt s log) fun s log =>
    orStop (walkChild v onConflictClause s log) fun s log =>
    orStop (walkChild v returningList s log) fun s log =>
    walkChild v withClause s log
  | .deleteStmt relation usingClause whereClause returningList withClause, s, log =>
    orStop (walkChild v relation s log) fun s log =>
    orStop (walkChild v usingClause s log) fun s log =>
    orStop (walkChild v whereClause s log) fun s log =>
    orStop (walkChild v returningList s log) fun s log =>
    walkChild v withClause s log
  | .updateStmt relation targetList whereClause fromClause returningList withClause, s, log =>
    orStop (walkChild v relation s log) fun s log =>
    orStop (walkChild v targetList s log) fun s log =>
    orStop (walkChild v whereClause s log) fun s log =>
    orStop (walkChild v fromClause s log) fun s log =>
    orStop (walkChild v returningList s log) fun s log =>
    walkChild v withClause s log
  | .mergeStmt relation sourceRelation joinCondition mergeWhenClauses withClause, s, log =>
    orStop (walkChild v relation s log) fun s log =>
    orStop (walkChild v sourceRelation s log) fun s log =>
    orStop (walkChild v joinCondition s log) fun s log =>
    orStop (walkChild v mergeWhenClauses s log) fun s log =>
    walkChild v withClause s log
  | .mergeWhenClause condition targetList values, s, log =>
    orStop (walkChild v condition s log) fun s log =>
    orStop (walkChild v targetList s log) fun s log =>
    walkChild v values s log
  | .selectStmt distinctClause intoClause targetList fromClause whereClause groupClause havingClause windowClause valuesLists sortClause limitOffset limitCount lockingClause withClause larg rarg, s, log =>
    orStop (walkChild v distinctClause s log) fun s log =>
    orStop (walkChild v intoClause s log) fun s log =>
    orStop (walkChild v targetList s log) fun s log =>
    orStop (walkChild v fromClause s log) fun s log =>
    orStop (walkChild v whereClause s log) fun s log =>
    orStop (walkChild v groupClause s log) fun s log =>
    orStop (walkChild v havingClause s log) fun s log =>
    orStop (walkChild v windowClause s log) fun s log =>
    orStop (walkChild v valuesLists s log) fun s log =>
    orStop (walkChild v sortClause s log) fun s log =>
    orStop (walkChild v limitOffset s log) fun s log =>
    orStop (walkChild v limitCount s log) fun s log =>
    orStop (walkChild v lockingClause s log) fun s log =>
    orStop (walkChild v withClause s log) fun s log =>
    orStop (walkChild v larg s log) fun s log =>
    walkChild v rarg s log
  | .plAssignStmt indirection val, s, log =>
    orStop (walkChild v indirection s log) fun s log =>
    walkChild v val s log
  -- A_Expr: operator name is deemed uninteresting
  | .aExpr lexpr rexpr _, s, log =>
    orStop (walkChild v lexpr s log) fun s log =>
    walkChild v rexpr s log
  | .boolExpr args _, s, log => walkChild v args s log
  -- ColumnRef: we assume the fields contain nothing interesting
  | .columnRef _ _, s, log => (false, s, log)
  -- FuncCall: function name is deemed uninteresting
  | .funcCall args aggOrder aggFilter over _, s, log =>
    orStop (walkChild v args s log) fun s log =>
    orStop (walkChild v aggOrder s log) fun s log =>
    orStop (walkChild v aggFilter s log) fun s log =>
    walkChild v over s log
  | .namedArgExpr arg _, s, log => walkChild v arg s log
  | .aIndices lidx uidx, s, log =>
    orStop (walkChild v lidx s log) fun s log =>
    walkChild v uidx s log
  | .aIndirection arg indirection, s, log =>
    orStop (walkChild v arg s log) fun s log =>
    walkChild v indirection s log
  | .aArrayExpr elements _, s, log => walkChild v elements s log
  | .resTarget indirection val _, s, log =>
    orStop (walkChild v indirection s log) fun s log =>
    walkChild v val s log
  | .multiAssignRef source, s, log => walkChild v source s log
  | .typeCast arg typeName _, s, log =>
    orStop (walkChild v arg s log) fun s log =>
    walkChild v typeName s log
  | .collateClause arg, s, log => walkChild v arg s log
  | .sortBy nd, s, log => walkChild v nd s log
  | .windowDef partitionClause orderClause startOffset endOffset _, s, log =>
    orStop (walkChild v partitionClause s log) fun s log =>
    orStop (walkChild v orderClause s log) fun s log =>
    orStop (walkChild v startOffset s log) fun s log =>
    walkChild v endOffset s log
  | .rangeSubselect subquery al, s, log =>
    orStop (walkChild v subquery s log) fun s log =>
    walkChild v al s log
  | .rangeFunction functions al coldeflist, s, log =>
    orStop (walkChild v functions s log) fun s log =>
    orStop (walkChild v al s log) fun s log =>
    walkChild v coldeflist s log
  -- RangeTableSample: method name is deemed uninteresting
  | .rangeTableSample relation args repeatable _, s, log =>
    orStop (walkChild v relation s log) fun s log =>
    orStop (walkChild v args s log) fun s log =>
    walkChild v repeatable s log
  | .rangeTableFunc docexpr rowexpr namespaces columns al, s, log =>
    orStop (walkChild v docexpr s log) fun s log =>
    orStop (walkChild v rowexpr s log) fun s log =>
    orStop (walkChild v namespaces s log) fun s log =>
    orStop (walkChild v columns s log) fun s log =>
    walkChild v al s log
  | .rangeTableFuncCol colexpr coldefexpr, s, log =>
    orStop (walkChild v colexpr s log) fun s log =>
    walkChild v coldefexpr s log
  -- TypeName: type name itself is deemed uninteresting
  | .typeName typmods arrayBounds _, s, log =>
    orStop (walkChild v typmods s log) fun s log =>
    walkChild v arrayBounds s log
  -- ColumnDef: for now, constraints are ignored
  | .columnDef typeName rawDefault collClause _, s, log =>
    orStop (walkChild v typeName s log) fun s log =>
    orStop (walkChild v rawDefault s log) fun s log =>
    walkChild v collClause s log
  -- IndexElem: collation and opclass names are deemed uninteresting
  | .indexElem expr, s, log => walkChild v expr s log
  | .groupingSet content _, s, log => walkChild v content s log
  | .lockingClause lockedRels, s, log => walkChild v lockedRels s log
  | .xmlSerialize expr typeName _, s, log =>
    orStop (walkChild v expr s log) fun s log =>
    walkChild v typeName s log
  | .withClause ctes _, s, log => walkChild v ctes s log
  | .inferClause indexElems whereClause _, s, log =>
    orStop (walkChild v indexElems s log) fun s log =>
    walkChild v whereClause s log
  | .onConflictClause infer targetList whereClause _, s, log =>
    orStop (walkChild v infer s log) fun s log =>
    orStop (walkChild v targetList s log) fun s log =>
    walkChild v whereClause s log
  -- CommonTableExpr: search_clause and cycle_clause are not interesting here
  | .commonTableExpr ctequery _ _ _, s, log => walkChild v ctequery s log
  | .jsonOutput typeName returning, s, log =>
    orStop (walkChild v typeName s log) fun s log =>
    walkChild v returning s log
  | .jsonKeyValue key value, s, log =>
    orStop (walkChild v key s log) fun s log =>
    walkChild v value s log
  | .jsonObjectConstructor output exprs _, s, log =>
    orStop (walkChild v output s log) fun s log =>
    walkChild v exprs s log
  | .jsonArrayConstructor output exprs _, s, log =>
    orStop (walkChild v output s log) fun s log =>
    walkChild v exprs s log
  | .jsonAggConstructor output aggOrder aggFilter over _, s, log =>
    orStop (walkChild v output s log) fun s log =>
    orStop (walkChild v aggOrder s log) fun s log =>
    orStop (walkChild v aggFilter s log) fun s log =>
    walkChild v over s log
  | .jsonObjectAgg ctor arg, s, log =>
    orStop (walkChild v ctor s log) fun s log =>
    walkChild v arg s log
  | .jsonArrayAgg ctor arg, s, log =>
    orStop (walkChild v ctor s log) fun s log =>
    walkChild v arg s log
  | .jsonArrayQueryConstructor output query _, s, log =>
    orStop (walkChild v output s log) fun s log =>
    walkChild v query s log
  -- default: NOTE: this does not handle DDL statements; unmodified it would
  -- lead to exit(1) being called; modified to change log level:
  -- elog(NOTICE, "unrecognized node type: %d", (int) nodeTag(node)); break
  | n, s, log => (false, s, log ++ [nodeTag n])

/-- WALK(n): the call `walker((Node *) (n), context)` on a child pointer.
The caller's visitor is, per the documented walker contract, the canonical
wrapper: `if (node == NULL) return false;` then the per-node visit `v`, then
recursion through `raw_expression_tree_walker`. -/
def walkChild {σ : Type} (v : Node → σ → Bool × σ) :
    Option Node → σ → List Tag → Bool × σ × List Tag
  | none, s, log => (false, s, log)
  | some m, s, log =>
    match v m s with
    | (true, s1) => (true, s1, log)
    | (false, s1) => raw_expression_tree_walker_impl v m s1 log

/-- The T_List arm: `foreach(temp, (List *) node) if (WALK(lfirst(temp)))
return true;` - WALK each cell in order, stopping at the first `true`. -/
def walkMembers {σ : Type} (v : Node → σ → Bool × σ) :
    List (Option Node) → σ → List Tag → Bool × σ × List Tag
  | [], s, log => (false, s, log)
  | x :: rest, s, log =>
    orStop (walkChild v x s log) fun s log =>
    walkMembers v rest s log

/-- The CaseExpr `foreach(temp, caseexpr->args)` loop over its List of
CaseWhen nodes (`NIL`, i.e. `none`, iterates zero times). -/
def walkWhens {σ : Type} (v : Node → σ → Bool × σ) :
    Option Node → σ → List Tag → Bool × σ × List Tag
  | some (.list ws), s, log => walkWhenList v ws s log
  | _, s, log => (false, s, log)

def walkWhenList {σ : Type} (v : Node → σ → Bool × σ) :
    List (Option Node) → σ → List Tag → Bool × σ × List Tag
  | [], s, log => (false, s, log)
  | w :: rest, s, log =>
    orStop (walkWhenOne v w s log) fun s log =>
    walkWhenList v rest s log

/-- One iteration of the CaseExpr loop: `CaseWhen *when = lfirst_node(CaseWhen,
temp); if (WALK(when->expr)) return true; if (WALK(when->result)) return
true;`.  The `lfirst_node` cast assumes every cell is a CaseWhen (it is in
every grammar-produced tree); any other cell shape would be undefined
behavior in C and contributes nothing here. -/
def walkWhenOne {σ : Type} (v : Node → σ → Bool × σ) :
    Option Node → σ → List Tag → Bool × σ × List Tag
  | some (.caseWhen expr result _), s, log =>
    orStop (walkChild v expr s log) fun s log =>
    walkChild v result s log
  | _, s, log => (false, s, log)

end

/-- One observable event of a traversal: a visitor invocation on a node, or
an unrecognized-kind notice naming a tag. -/
inductive Item where
  | visit (n : Node)
  | notice (t : Tag)

/-- Reference semantics of a traversal: process the event list in order;
a visit applies the visitor and stops the whole run at the first `true`,
a notice appends its tag to the diagnostic log. -/
def runTrace {σ : Type} (v : Node → σ → Bool × σ) :
    List Item → σ → List Tag → Bool × σ × List Tag
  | [], s, log => (false, s, log)
  | .visit n :: rest, s, log =>
    match v n s with
    | (true, s1) => (true, s1, log)
    | (false, s1) => runTrace v rest s1 log
  | .notice t :: rest, s, log => runTrace v rest s (log ++ [t])

mutual

/-- The event list of `raw_expression_tree_walker_impl` on a node: the
left-to-right, depth-first, per-kind field order in which children are
WALKed (the node itself is not visited), with a notice for the unrecognized
kinds.  Cases are in the order of the walker's switch. -/
def walkTrace : Node → List Item
  | .jsonFormat _ => []
  | .setToDefault _ => []
  | .currentOfExpr _ => []
  | .sqlValueFunction _ => []
  | .integerVal _ => []
  | .floatVal _ => []
  | .booleanVal _ => []
  | .stringVal _ => []
  | .bitString _ => []
  | .paramRef _ _ => []
  | .aConst _ _ => []
  | .aStar => []
  | .aliasNode _ _ => []
  | .rangeVar al _ => traceChild al
  | .groupingFunc args _ => traceChild args
  | .subLink testexpr _ subselect _ => traceChild testexpr ++ traceChild subselect
  | .caseExpr arg args defresult _ =>
    traceChild arg ++ (traceWhens args ++ traceChild defresult)
  | .rowExpr args _ => traceChild args
  | .coalesceExpr args _ => traceChild args
  | .minMaxExpr args _ => traceChild args
  | .xmlExpr namedArgs args _ => traceChild namedArgs ++ traceChild args
  | .jsonReturning format => traceChild format
  | .jsonValueExpr rawExpr formattedExpr format =>
    traceChild rawExpr ++ (traceChild formattedExpr ++ traceChild format)
  | .jsonConstructorExpr args func coercion returning _ =>
    traceChild args ++ (traceChild func ++ (traceChild coercion ++ traceChild returning))
  | .jsonIsPredicate expr _ => traceChild expr
  | .nullTest arg _ => traceChild arg
  | .booleanTest arg _ => traceChild arg
  | .joinExpr larg rarg quals al =>
    traceChild larg ++ (traceChild rarg ++ (traceChild quals ++ traceChild al))
  | .intoClause rel viewQuery => traceChild rel ++ traceChild viewQuery
  | .list xs => traceMembers xs
  | .insertStmt relation cols selectStmt onConflictClause returningList withClause =>
    traceChild relation ++ (traceChild cols ++ (traceChild selectStmt ++
      (traceChild onConflictClause ++ (traceChild returningList ++ traceChild withClause))))
  | .deleteStmt relation usingClause whereClause returningList withClause =>
    traceChild relation ++ (traceChild usingClause ++ (traceChild whereClause ++
      (traceChild returningList ++ traceChild withClause)))
  | .updateStmt relation targetList whereClause fromClause returningList withClause =>
    traceChild relation ++ (traceChild targetList ++ (traceChild whereClause ++
      (traceChild fromClause ++ (traceChild returningList ++ traceChild withClause))))
  | .mergeStmt relation sourceRelation joinCondition mergeWhenClauses withClause =>
    traceChild relation ++ (traceChild sourceRelation ++ (traceChild joinCondition ++
      (traceChild mergeWhenClauses ++ traceChild withClause)))
  | .mergeWhenClause condition targetList values =>
    traceChild condition ++ (traceChild targetList ++ traceChild values)
  | .selectStmt distinctClause intoClause targetList fromClause whereClause groupClause havingClause windowClause valuesLists sortClause limitOffset limitCount lockingClause withClause larg rarg =>
    traceChild distinctClause ++ (traceChild intoClause ++ (traceChild targetList ++
      (traceChild fromClause ++ (traceChild whereClause ++ (traceChild groupClause ++
      (traceChild havingClause ++ (traceChild windowClause ++ (traceChild valuesLists ++
      (traceChild sortClause ++ (traceChild limitOffset ++ (traceChild limitCount ++
      (traceChild lockingClause ++ (traceChild withClause ++ (traceChild larg ++
      traceChild rarg))))))))))))))
  | .plAssignStmt indirection val => traceChild indirection ++ traceChild val
  | .aExpr lexpr rexpr _ => traceChild lexpr ++ traceChild rexpr
  | .boolExpr args _ => traceChild args
  | .columnRef _ _ => []
  | .funcCall args aggOrder aggFilter over _ =>
    traceChild args ++ (traceChild aggOrder ++ (traceChild aggFilter ++ traceChild over))
  | .namedArgExpr arg _ => traceChild arg
  | .aIndices lidx uidx => traceChild lidx ++ traceChild uidx
  | .aIndirection arg indirection => traceChild arg ++ traceChild indirection
  | .aArrayExpr elements _ => traceChild elements
  | .resTarget indirection val _ => traceChild indirection ++ traceChild val
  | .multiAssignRef source => traceChild source
  | .typeCast arg typeName _ => traceChild arg ++ traceChild typeName
  | .collateClause arg => traceChild arg
  | .sortBy nd => traceChild nd
  | .windowDef partitionClause orderClause startOffset endOffset _ =>
    traceChild partitionClause ++ (traceChild orderClause ++
      (traceChild startOffset ++ traceChild endOffset))
  | .rangeSubselect subquery al => traceChild subquery ++ traceChild al
  | .rangeFunction functions al coldeflist =>
    traceChild functions ++ (traceChild al ++ traceChild coldeflist)
  | .rangeTableSample relation args repeatable _ =>
    traceChild relation ++ (traceChild args ++ traceChild repeatable)
  | .rangeTableFunc docexpr rowexpr namespaces columns al =>
    traceChild docexpr ++ (traceChild rowexpr ++ (traceChild namespaces ++
      (traceChild columns ++ traceChild al)))
  | .rangeTableFuncCol colexpr coldefexpr => traceChild colexpr ++ traceChild coldefexpr
  | .typeName typmods arrayBounds _ => traceChild typmods ++ traceChild arrayBounds
  | .columnDef typeName rawDefault collClause _ =>
    traceChild typeName ++ (traceChild rawDefault ++ traceChild collClause)
  | .indexElem expr => traceChild expr
  | .groupingSet content _ => traceChild content
  | .lockingClause lockedRels => traceChild lockedRels
  | .xmlSerialize expr typeName _ => traceChild expr ++ traceChild typeName
  | .withClause ctes _ => traceChild ctes
  | .inferClause indexElems whereClause _ => traceChild indexElems ++ traceChild whereClause
  | .onConflictClause infer targetList whereClause _ =>
    traceChild infer ++ (traceChild targetList ++ traceChild whereClause)
  | .commonTableExpr ctequery _ _ _ => traceChild ctequery
  | .jsonOutput typeName returning => traceChild typeName ++ traceChild returning
  | .jsonKeyValue key value => traceChild key ++ traceChild value
  | .jsonObjectConstructor output exprs _ => traceChild output ++ traceChild exprs
  | .jsonArrayConstructor output exprs _ => traceChild output ++ traceChild exprs
  | .jsonAggConstructor output aggOrder aggFilter over _ =>
    traceChild output ++ (traceChild aggOrder ++ (traceChild aggFilter ++ traceChild over))
  | .jsonObjectAgg ctor arg => traceChild ctor ++ traceChild arg
  | .jsonArrayAgg ctor arg => traceChild ctor ++ traceChild arg
  | .jsonArrayQueryConstructor output query _ => traceChild output ++ traceChild query
  | n => [.notice (nodeTag n)]

/-- Event list of WALK on a child pointer: nothing for NULL, else a visit of
the child followed by the events of walking its sub-nodes. -/
def traceChild : Option Node → List Item
  | none => []
  | some m => .visit m :: walkTrace m

/-- Event list of the T_List arm. -/
def traceMembers : List (Option Node) → List Item
  | [] => []
  | x :: rest => traceChild x ++ traceMembers rest

/-- Event list of the CaseExpr whens loop. -/
def traceWhens : Option Node → List Item
  | some (.list ws) => traceWhenList ws
  | _ => []

def traceWhenList : List (Option Node) → List Item
  | [] => []
  | w :: rest => traceWhenOne w ++ traceWhenList rest

def traceWhenOne : Option Node → List Item
  | some (.caseWhen expr result _) => traceChild expr ++ traceChild result
  | _ => []

end

/-- The node a visit event carries, if any. -/
def itemVisit : Item → Option Node
  | .visit n => some n
  | .notice _ => none

/-- The tag a notice event carries, if any. -/
def itemNotice : Item → Option Tag
  | .visit _ => none
  | .notice t => some t

/-- Nodes visited along an event list, in order. -/
def visitsOf (items : List Item) : List Node := items.filterMap itemVisit

/-- Notices reported along an event list, in order. -/
def noticesOf (items : List Item) : List Tag := items.filterMap itemNotice

/-- The sequence of nodes on which the walker invokes the visitor when the
visitor never stops the walk: the traversal order of `n`. -/
def walkVisits (n : Node) : List Node := visitsOf (walkTrace n)

/-- The tags of the unrecognized-kind notices a full (never-stopped) walk of
`n` reports, in order. -/
def walkNotices (n : Node) : List Tag := noticesOf (walkTrace n)

/-- A visitor that never stops and records every node it is invoked on. -/
def visitLogger : Node → List Node → Bool × List Node :=
  fun m l => (false, l ++ [m])

/-- The list of nodes the walker actually invokes the visitor on, starting
from `n` with an empty record and an empty notice log. -/
def visitLog (n : Node) : List Node :=
  (raw_expression_tree_walker_impl visitLogger n [] []).2.1

/-- All immediate child nodes of a node, through every node-valued field the
embedding retains - including the fields the walker deliberately skips
(Alias.colnames, ColumnRef.fields, SubLink.operName, CaseExpr's CaseWhen
list, CommonTableExpr.search_clause/cycle_clause, ...). -/
def children : Node → List Node
  | .integerVal _ => []
  | .floatVal _ => []
  | .booleanVal _ => []
  | .stringVal _ => []
  | .bitString _ => []
  | .paramRef _ _ => []
  | .aConst _ _ => []
  | .aStar => []
  | .jsonFormat _ => []
  | .setToDefault _ => []
  | .currentOfExpr _ => []
  | .sqlValueFunction _ => []
  | .aliasNode _ colnames => colnames.toList
  | .var _ => []
  | .const _ => []
  | .param _ => []
  | .aggref _ => []
  | .groupingFunc args _ => args.toList
  | .windowFunc _ => []
  | .tableFunc _ => []
  | .subscriptingRef refexpr => refexpr.toList
  | .funcExpr args _ => args.toList
  | .namedArgExpr arg _ => arg.toList
  | .opExpr args _ => args.toList
  | .distinctExpr args _ => args.toList
  | .nullIfExpr args _ => args.toList
  | .scalarArrayOpExpr args _ => args.toList
  | .boolExpr args _ => args.toList
  | .subLink testexpr operName subselect _ =>
    testexpr.toList ++ operName.toList ++ subselect.toList
  | .fieldSelect arg => arg.toList
  | .fieldStore arg => arg.toList
  | .relabelType arg _ => arg.toList
  | .coerceViaIo arg _ => arg.toList
  | .arrayCoerceExpr arg _ => arg.toList
  | .convertRowtypeExpr arg _ => arg.toList
  | .collateExpr arg => arg.toList
  | .caseExpr arg args defresult _ => arg.toList ++ args.toList ++ defresult.toList
  | .caseWhen expr result _ => expr.toList ++ result.toList
  | .arrayExpr _ => []
  | .rowExpr args _ => args.toList
  | .rowCompareExpr largs => largs.toList
  | .coalesceExpr args _ => args.toList
  | .minMaxExpr args _ => args.toList
  | .xmlExpr namedArgs args _ => namedArgs.toList ++ args.toList
  | .nullTest arg _ => arg.toList
  | .booleanTest arg _ => arg.toList
  | .coerceToDomain arg _ => arg.toList
  | .coerceToDomainValue _ => []
  | .targetEntry expr => expr.toList
  | .placeHolderVar phexpr => phexpr.toList
  | .inferenceElem expr => expr.toList
  | .rangeVar al _ => al.toList
  | .jsonReturning format => format.toList
  | .jsonValueExpr rawExpr formattedExpr format =>
    rawExpr.toList ++ formattedExpr.toList ++ format.toList
  | .jsonConstructorExpr args func coercion returning _ =>
    args.toList ++ func.toList ++ coercion.toList ++ returning.toList
  | .jsonIsPredicate expr _ => expr.toList
  | .joinExpr larg rarg quals al => larg.toList ++ rarg.toList ++ quals.toList ++ al.toList
  | .intoClause rel viewQuery => rel.toList ++ viewQuery.toList
  | .list xs => xs.reduceOption
  | .insertStmt relation cols selectStmt onConflictClause returningList withClause =>
    relation.toList ++ cols.toList ++ selectStmt.toList ++ onConflictClause.toList ++
      returningList.toList ++ withClause.toList
  | .deleteStmt relation usingClause whereClause returningList withClause =>
    relation.toList ++ usingClause.toList ++ whereClause.toList ++
      returningList.toList ++ withClause.toList
  | .updateStmt relation targetList whereClause fromClause returningList withClause =>
    relation.toList ++ targetList.toList ++ whereClause.toList ++ fromClause.toList ++
      returningList.toList ++ withClause.toList
  | .mergeStmt relation sourceRelation joinCondition mergeWhenClauses withClause =>
    relation.toList ++ sourceRelation.toList ++ joinCondition.toList ++
      mergeWhenClauses.toList ++ withClause.toList
  | .mergeWhenClause condition targetList values =>
    condition.toList ++ targetList.toList ++ values.toList
  | .selectStmt distinctClause intoClause targetList fromClause whereClause groupClause havingClause windowClause valuesLists sortClause limitOffset limitCount lockingClause withClause larg rarg =>
    distinctClause.toList ++ intoClause.toList ++ targetList.toList ++ fromClause.toList ++
      whereClause.toList ++ groupClause.toList ++ havingClause.toList ++
      windowClause.toList ++ valuesLists.toList ++ sortClause.toList ++
      limitOffset.toList ++ limitCount.toList ++ lockingClause.toList ++
      withClause.toList ++ larg.toList ++ rarg.toList
  | .plAssignStmt indirection val => indirection.toList ++ val.toList
  | .aExpr lexpr rexpr _ => lexpr.toList ++ rexpr.toList
  | .columnRef fields _ => fields.toList
  | .funcCall args aggOrder aggFilter over _ =>
    args.toList ++ aggOrder.toList ++ aggFilter.toList ++ over.toList
  | .aIndices lidx uidx => lidx.toList ++ uidx.toList
  | .aIndirection arg indirection => arg.toList ++ indirection.toList
  | .aArrayExpr elements _ => elements.toList
  | .resTarget indirection val _ => indirection.toList ++ val.toList
  | .multiAssignRef source => source.toList
  | .typeCast arg typeName _ => arg.toList ++ typeName.toList
  | .collateClause arg => arg.toList
  | .sortBy nd => nd.toList
  | .windowDef partitionClause orderClause startOffset endOffset _ =>
    partitionClause.toList ++ orderClause.toList ++ startOffset.toList ++ endOffset.toList
  | .rangeSubselect subquery al => subquery.toList ++ al.toList
  | .rangeFunction functions al coldeflist =>
    functions.toList ++ al.toList ++ coldeflist.toList
  | .rangeTableSample relation args repeatable _ =>
    relation.toList ++ args.toList ++ repeatable.toList
  | .rangeTableFunc docexpr rowexpr namespaces columns al =>
    docexpr.toList ++ rowexpr.toList ++ namespaces.toList ++ columns.toList ++ al.toList
  | .rangeTableFuncCol colexpr coldefexpr => colexpr.toList ++ coldefexpr.toList
  | .typeName typmods arrayBounds _ => typmods.toList ++ arrayBounds.toList
  | .columnDef typeName rawDefault collClause _ =>
    typeName.toList ++ rawDefault.toList ++ collClause.toList
  | .indexElem expr => expr.toList
  | .groupingSet content _ => content.toList
  | .lockingClause lockedRels => lockedRels.toList
  | .xmlSerialize expr typeName _ => expr.toList ++ typeName.toList
  | .withClause ctes _ => ctes.toList
  | .inferClause indexElems whereClause _ => indexElems.toList ++ whereClause.toList
  | .onConflictClause infer targetList whereClause _ =>
    infer.toList ++ targetList.toList ++ whereClause.toList
  | .commonTableExpr ctequery searchClause cycleClause _ =>
    ctequery.toList ++ searchClause.toList ++ cycleClause.toList
  | .jsonOutput typeName returning => typeName.toList ++ returning.toList
  | .jsonKeyValue key value => key.toList ++ value.toList
  | .jsonObjectConstructor output exprs _ => output.toList ++ exprs.toList
  | .jsonArrayConstructor output exprs _ => output.toList ++ exprs.toList
  | .jsonAggConstructor output aggOrder aggFilter over _ =>
    output.toList ++ aggOrder.toList ++ aggFilter.toList ++ over.toList
  | .jsonObjectAgg ctor arg => ctor.toList ++ arg.toList
  | .jsonArrayAgg ctor arg => ctor.toList ++ arg.toList
  | .jsonArrayQueryConstructor output query _ => output.toList ++ query.toList
  | .cteSearchClause _ => []
  | .cteCycleClause _ => []
  | .constraint _ => []
  | .functionParameter argType => argType.toList
  | .partitionElem _ => []
  | .partitionSpec _ => []
  | .partitionBoundSpec _ => []
  | .partitionRangeDatum _ => []

/-- `c` is stored in one of `p`'s node-valued fields. -/
def childOf (p c : Node) : Prop := c ∈ children p

/-- `m` is reachable from `n` by following one or more field pointers
(`n` itself excluded, matching the walker's contract that the caller has
already visited the start node). -/
def reachableFrom (n m : Node) : Prop := Relation.TransGen childOf n m

/-- Whether a node kind has its own arm in the walker's switch (true) or
falls to the patched `default:` branch (false).  The listed kinds are
exactly the case labels of `raw_expression_tree_walker_impl`. -/
def rawWalkerHandles : Node → Bool
  | .jsonFormat _ | .setToDefault _ | .currentOfExpr _ | .sqlValueFunction _
  | .integerVal _ | .floatVal _ | .booleanVal _ | .stringVal _ | .bitString _
  | .paramRef _ _ | .aConst _ _ | .aStar | .aliasNode _ _ | .rangeVar _ _
  | .groupingFunc _ _ | .subLink _ _ _ _ | .caseExpr _ _ _ _ | .rowExpr _ _
  | .coalesceExpr _ _ | .minMaxExpr _ _ | .xmlExpr _ _ _ | .jsonReturning _
  | .jsonValueExpr _ _ _ | .jsonConstructorExpr _ _ _ _ _ | .jsonIsPredicate _ _
  | .nullTest _ _ | .booleanTest _ _ | .joinExpr _ _ _ _ | .intoClause _ _
  | .list _ | .insertStmt _ _ _ _ _ _ | .deleteStmt _ _ _ _ _
  | .updateStmt _ _ _ _ _ _ | .mergeStmt _ _ _ _ _ | .mergeWhenClause _ _ _
  | .selectStmt _ _ _ _ _ _ _ _ _ _ _ _ _ _ _ _ | .plAssignStmt _ _
  | .aExpr _ _ _ | .boolExpr _ _ | .columnRef _ _ | .funcCall _ _ _ _ _
  | .namedArgExpr _ _ | .aIndices _ _ | .aIndirection _ _ | .aArrayExpr _ _
  | .resTarget _ _ _ | .multiAssignRef _ | .typeCast _ _ _ | .collateClause _
  | .sortBy _ | .windowDef _ _ _ _ _ | .rangeSubselect _ _ | .rangeFunction _ _ _
  | .rangeTableSample _ _ _ _ | .rangeTableFunc _ _ _ _ _ | .rangeTableFuncCol _ _
  | .typeName _ _ _ | .columnDef _ _ _ _ | .indexElem _ | .groupingSet _ _
  | .lockingClause _ | .xmlSerialize _ _ _ | .withClause _ _ | .inferClause _ _ _
  | .onConflictClause _ _ _ _ | .commonTableExpr _ _ _ _ | .jsonOutput _ _
  | .jsonKeyValue _ _ | .jsonObjectConstructor _ _ _ | .jsonArrayConstructor _ _ _
  | .jsonAggConstructor _ _ _ _ _ | .jsonObjectAgg _ _ | .jsonArrayAgg _ _
  | .jsonArrayQueryConstructor _ _ _ => true
  | _ => false

/-- A concrete CaseWhen node: `WHEN col THEN 3` with the column reference at
offset 1 and the constant at offset 3. -/
def exampleWhen : Node :=
  .caseWhen (some (.columnRef none 1)) (some (.aConst false 3)) 0

/-- A concrete CaseExpr holding `exampleWhen` as the single member of its
CaseWhen list. -/
def exampleCase : Node :=
  .caseExpr none (some (.list [some exampleWhen])) none 0

/-- Modelled from the spec: the structured error of the parse entry point.
Its definition (`PgQueryError` in the public header) is not among the
provided sources; the spec fixes its fields as message, functionName,
fileName, lineNumber and cursorPosition (1-based, 0 if unknown). -/
structure PgQueryError where
  message : String
  funcname : String
  filename : String
  lineno : Int
  cursorpos : Int

/-- Result record of `pg_query_raw_parse`, following the declaration in
pg_query_internal.h: a statement List (embedded as its cells), the captured
diagnostic buffer (STDERR_BUFFER_LEN = 4096), and an optional error. -/
structure PgQueryInternalParsetreeAndError where
  tree : List (Option Node)
  stderr_buffer : String
  error : Option PgQueryError

/-- Modelled from the spec: `pg_query_raw_parse` is only declared in
pg_query_internal.h; its body (pg_query_parse.c) is not among the provided
sources.  Per spec section 4.1: empty input yields an empty tree and no
error; otherwise the embedded grammar/lexer runs (abstracted here as the
`rawParser` argument, together with the diagnostic text it emits), every
failure is caught and converted to a structured error, and diagnostic
output is captured truncated to 4096 bytes. -/
def pg_query_raw_parse
    (rawParser : String → Int → Except PgQueryError (List (Option Node)) × String)
    (input : String) (parser_options : Int) : PgQueryInternalParsetreeAndError :=
  if input = "" then { tree := [], stderr_buffer := "", error := none }
  else
    match rawParser input parser_options with
    | (.ok t, diag) => { tree := t, stderr_buffer := diag.take 4096, error := none }
    | (.error e, diag) => { tree := [], stderr_buffer := diag.take 4096, error := some e }

/-- Splitting lemma for the reference semantics: running a concatenation of
event lists runs the first part and, unless it stopped, continues with the
second from the reached state. -/
theorem runTrace_append {σ : Type} (v : Node → σ → Bool × σ) (a b : List Item)
    (s : σ) (log : List Tag) :
    runTrace v (a ++ b) s log =
      match runTrace v a s log with
      | (true, s1, log1) => (true, s1, log1)
      | (false, s1, log1) => runTrace v b s1 log1 := by
  induction a generalizing s log with
  | nil => simp [runTrace]
  | cons x rest ih =>
    cases x with
    | visit n =>
      simp only [List.cons_append, runTrace]
      cases v n s with
      | mk b1 s1 => cases b1 <;> simp [ih]
    | notice t =>
      simp only [List.cons_append, runTrace]
      exact ih _ _

/-- Sequencing principle: if the WALK result `r` runs the events `a` and the
continuation `k` runs the events `b`, then the C early-return chain
`orStop r k` runs `a ++ b`. -/
theorem seqTrace {σ : Type} (v : Node → σ → Bool × σ) (a b : List Item)
    (r : Bool × σ × List Tag) (k : σ → List Tag → Bool × σ × List Tag)
    (s : σ) (log : List Tag)
    (hr : r = runTrace v a s log)
    (hk : ∀ s1 log1, k s1 log1 = runTrace v b s1 log1) :
    orStop r k = runTrace v (a ++ b) s log := by
  rw [runTrace_append, hr]
  rcases runTrace v a s log with ⟨b1, s1, log1⟩
  cases b1 with
  | false => exact hk s1 log1
  | true => rfl

mutual

/-- The walker is the reference semantics run on the node's event list: for
every visitor, state and notice log, `raw_expression_tree_walker_impl`
equals `runTrace` of `walkTrace`. -/
theorem walker_runTrace {σ : Type} (v : Node → σ → Bool × σ) :
    ∀ (n : Node) (s : σ) (log : List Tag),
      raw_expression_tree_walker_impl v n s log = runTrace v (walkTrace n) s log
  | .jsonFormat _, _, _ => rfl
  | .setToDefault _, _, _ => rfl
  | .currentOfExpr _, _, _ => rfl
  | .sqlValueFunction _, _, _ => rfl
  | .integerVal _, _, _ => rfl
  | .floatVal _, _, _ => rfl
  | .booleanVal _, _, _ => rfl
  | .stringVal _, _, _ => rfl
  | .bitString _, _, _ => rfl
  | .paramRef _ _, _, _ => rfl
  | .aConst _ _, _, _ => rfl
  | .aStar, _, _ => rfl
  | .aliasNode _ _, _, _ => rfl
  | .rangeVar al _, s, log => walkChild_runTrace v al s log
  | .groupingFunc args _, s, log => walkChild_runTrace v args s log
  | .subLink testexpr _ subselect _, s, log =>
    seqTrace v _ _ _ _ s log (walkChild_runTrace v testexpr s log)
      (fun s1 log1 => walkChild_runTrace v subselect s1 log1)
  | .caseExpr arg args defresult _, s, log =>
    seqTrace v _ _ _ _ s log (walkChild_runTrace v arg s log)
      (fun s1 log1 => seqTrace v _ _ _ _ s1 log1 (walkWhens_runTrace v args s1 log1)
        (fun s2 log2 => walkChild_runTrace v defresult s2 log2))
  | .rowExpr args _, s, log => walkChild_runTrace v args s log
  | .coalesceExpr args _, s, log => walkChild_runTrace v args s log
  | .minMaxExpr args _, s, log => walkChild_runTrace v args s log
  | .xmlExpr namedArgs args _, s, log =>
    seqTrace v _ _ _ _ s log (walkChild_runTrace v namedArgs s log)
      (fun s1 log1 => walkChild_runTrace v args s1 log1)
  | .jsonReturning format, s, log => walkChild_runTrace v format s log
  | .jsonValueExpr rawExpr formattedExpr format, s, log =>
    seqTrace v _ _ _ _ s log (walkChild_runTrace v rawExpr s log)
      (fun s1 log1 => seqTrace v _ _ _ _ s1 log1 (walkChild_runTrace v formattedExpr s1 log1)
        (fun s2 log2 => walkChild_runTrace v format s2 log2))
  | .jsonConstructorExpr args func coercion returning _, s, log =>
    seqTrace v _ _ _ _ s log (walkChild_runTrace v args s log)
      (fun s1 log1 => seqTrace v _ _ _ _ s1 log1 (walkChild_runTrace v func s1 log1)
        (fun s2 log2 => seqTrace v _ _ _ _ s2 log2 (walkChild_runTrace v coercion s2 log2)
          (fun s3 log3 => walkChild_runTrace v returning s3 log3)))
  | .jsonIsPredicate expr _, s, log => walkChild_runTrace v expr s log
  | .nullTest arg _, s, log => walkChild_runTrace v arg s log
  | .booleanTest arg _, s, log => walkChild_runTrace v arg s log
  | .joinExpr larg rarg quals al, s, log =>
    seqTrace v _ _ _ _ s log (walkChild_runTrace v larg s log)
      (fun s1 log1 => seqTrace v _ _ _ _ s1 log1 (walkChild_runTrace v rarg s1 log1)
        (fun s2 log2 => seqTrace v _ _ _ _ s2 log2 (walkChild_runTrace v quals s2 log2)
          (fun s3 log3 => walkChild_runTrace v al s3 log3)))
  | .intoClause rel viewQuery, s, log =>
    seqTrace v _ _ _ _ s log (walkChild_runTrace v rel s log)
      (fun s1 log1 => walkChild_runTrace v viewQuery s1 log1)
  | .list xs, s, log => walkMembers_runTrace v xs s log
  | .insertStmt relation cols selectStmt onConflictClause returningList withClause, s, log =>
    seqTrace v _ _ _ _ s log (walkChild_runTrace v relation s log)
      (fun s1 log1 => seqTrace v _ _ _ _ s1 log1 (walkChild_runTrace v cols s1 log1)
        (fun s2 log2 => seqTrace v _ _ _ _ s2 log2 (walkChild_runTrace v selectStmt s2 log2)
          (fun s3 log3 => seqTrace v _ _ _ _ s3 log3 (walkChild_runTrace v onConflictClause s3 log3)
            (fun s4 log4 => seqTrace v _ _ _ _ s4 log4 (walkChild_runTrace v returningList s4 log4)
              (fun s5 log5 => walkChild_runTrace v withClause s5 log5)))))
  | .deleteStmt relation usingClause whereClause returningList withClause, s, log =>
    seqTrace v _ _ _ _ s log (walkChild_runTrace v relation s log)
      (fun s1 log1 => seqTrace v _ _ _ _ s1 log1 (walkChild_runTrace v usingClause s1 log1)
        (fun s2 log2 => seqTrace v _ _ _ _ s2 log2 (walkChild_runTrace v whereClause s2 log2)
          (fun s3 log3 => seqTrace v _ _ _ _ s3 log3 (walkChild_runTrace v returningList s3 log3)
            (fun s4 log4 => walkChild_runTrace v withClause s4 log4))))
  | .updateStmt relation targetList whereClause fromClause returningList withClause, s, log =>
    seqTrace v _ _ _ _ s log (walkChild_runTrace v relation s log)
      (fun s1 log1 => seqTrace v _ _ _ _ s1 log1 (walkChild_runTrace v targetList s1 log1)
        (fun s2 log2 => seqTrace v _ _ _ _ s2 log2 (walkChild_runTrace v whereClause s2 log2)
          (fun s3 log3 => seqTrace v _ _ _ _ s3 log3 (walkChild_runTrace v fromClause s3 log3)
            (fun s4 log4 => seqTrace v _ _ _ _ s4 log4 (walkChild_runTrace v returningList s4 log4)
              (fun s5 log5 => walkChild_runTrace v withClause s5 log5)))))
  | .mergeStmt relation sourceRelation joinCondition mergeWhenClauses withClause, s, log =>
    seqTrace v _ _ _ _ s log (walkChild_runTrace v relation s log)
      (fun s1 log1 => seqTrace v _ _ _ _ s1 log1 (walkChild_runTrace v sourceRelation s1 log1)
        (fun s2 log2 => seqTrace v _ _ _ _ s2 log2 (walkChild_runTrace v joinCondition s2 log2)
          (fun s3 log3 => seqTrace v _ _ _ _ s3 log3 (walkChild_runTrace v mergeWhenClauses s3 log3)
            (fun s4 log4 => walkChild_runTrace v withClause s4 log4))))
  | .mergeWhenClause condition targetList values, s, log =>
    seqTrace v _ _ _ _ s log (walkChild_runTrace v condition s log)
      (fun s1 log1 => seqTrace v _ _ _ _ s1 log1 (walkChild_runTrace v targetList s1 log1)
        (fun s2 log2 => walkChild_runTrace v values s2 log2))
  | .selectStmt distinctClause intoClause targetList fromClause whereClause groupClause havingClause windowClause valuesLists sortClause limitOffset limitCount lockingClause withClause larg rarg, s, log =>
    seqTrace v _ _ _ _ s log (walkChild_runTrace v distinctClause s log)
      (fun s1 log1 => seqTrace v _ _ _ _ s1 log1 (walkChild_runTrace v intoClause s1 log1)
        (fun s2 log2 => seqTrace v _ _ _ _ s2 log2 (walkChild_runTrace v targetList s2 log2)
          (fun s3 log3 => seqTrace v _ _ _ _ s3 log3 (walkChild_runTrace v fromClause s3 log3)
            (fun s4 log4 => seqTrace v _ _ _ _ s4 log4 (walkChild_runTrace v whereClause s4 log4)
              (fun s5 log5 => seqTrace v _ _ _ _ s5 log5 (walkChild_runTrace v groupClause s5 log5)
                (fun s6 log6 => seqTrace v _ _ _ _ s6 log6 (walkChild_runTrace v havingClause s6 log6)
                  (fun s7 log7 => seqTrace v _ _ _ _ s7 log7 (walkChild_runTrace v windowClause s7 log7)
                    (fun s8 log8 => seqTrace v _ _ _ _ s8 log8 (walkChild_runTrace v valuesLists s8 log8)
                      (fun s9 log9 => seqTrace v _ _ _ _ s9 log9 (walkChild_runTrace v sortClause s9 log9)
                        (fun s10 log10 => seqTrace v _ _ _ _ s10 log10 (walkChild_runTrace v limitOffset s10 log10)
                          (fun s11 log11 => seqTrace v _ _ _ _ s11 log11 (walkChild_runTrace v limitCount s11 log11)
                            (fun s12 log12 => seqTrace v _ _ _ _ s12 log12 (walkChild_runTrace v lockingClause s12 log12)
                              (fun s13 log13 => seqTrace v _ _ _ _ s13 log13 (walkChild_runTrace v withClause s13 log13)
                                (fun s14 log14 => seqTrace v _ _ _ _ s14 log14 (walkChild_runTrace v larg s14 log14)
                                  (fun s15 log15 => walkChild_runTrace v rarg s15 log15)))))))))))))))
  | .plAssignStmt indirection val, s, log =>
    seqTrace v _ _ _ _ s log (walkChild_runTrace v indirection s log)
      (fun s1 log1 => walkChild_runTrace v val s1 log1)
  | .aExpr lexpr rexpr _, s, log =>
    seqTrace v _ _ _ _ s log (walkChild_runTrace v lexpr s log)
      (fun s1 log1 => walkChild_runTrace v rexpr s1 log1)
  | .boolExpr args _, s, log => walkChild_runTrace v args s log
  | .columnRef _ _, _, _ => rfl
  | .funcCall args aggOrder aggFilter over _, s, log =>
    seqTrace v _ _ _ _ s log (walkChild_runTrace v args s log)
      (fun s1 log1 => seqTrace v _ _ _ _ s1 log1 (walkChild_runTrace v aggOrder s1 log1)
        (fun s2 log2 => seqTrace v _ _ _ _ s2 log2 (walkChild_runTrace v aggFilter s2 log2)
          (fun s3 log3 => walkChild_runTrace v over s3 log3)))
  | .namedArgExpr arg _, s, log => walkChild_runTrace v arg s log
  | .aIndices lidx uidx, s, log =>
    seqTrace v _ _ _ _ s log (walkChild_runTrace v lidx s log)
      (fun s1 log1 => walkChild_runTrace v uidx s1 log1)
  | .aIndirection arg indirection, s, log =>
    seqTrace v _ _ _ _ s log (walkChild_runTrace v arg s log)
      (fun s1 log1 => walkChild_runTrace v indirection s1 log1)
  | .aArrayExpr elements _, s, log => walkChild_runTrace v elements s log
  | .resTarget indirection val _, s, log =>
    seqTrace v _ _ _ _ s log (walkChild_runTrace v indirection s log)
      (fun s1 log1 => walkChild_runTrace v val s1 log1)
  | .multiAssignRef source, s, log => walkChild_runTrace v source s log
  | .typeCast arg typeName _, s, log =>
    seqTrace v _ _ _ _ s log (walkChild_runTrace v arg s log)
      (fun s1 log1 => walkChild_runTrace v typeName s1 log1)
  | .collateClause arg, s, log => walkChild_runTrace v arg s log
  | .sortBy nd, s, log => walkChild_runTrace v nd s log
  | .windowDef partitionClause orderClause startOffset endOffset _, s, log =>
    seqTrace v _ _ _ _ s log (walkChild_runTrace v partitionClause s log)
      (fun s1 log1 => seqTrace v _ _ _ _ s1 log1 (walkChild_runTrace v orderClause s1 log1)
        (fun s2 log2 => seqTrace v _ _ _ _ s2 log2 (walkChild_runTrace v startOffset s2 log2)
          (fun s3 log3 => walkChild_runTrace v endOffset s3 log3)))
  | .rangeSubselect subquery al, s, log =>
    seqTrace v _ _ _ _ s log (walkChild_runTrace v subquery s log)
      (fun s1 log1 => walkChild_runTrace v al s1 log1)
  | .rangeFunction functions al coldeflist, s, log =>
    seqTrace v _ _ _ _ s log (walkChild_runTrace v functions s log)
      (fun s1 log1 => seqTrace v _ _ _ _ s1 log1 (walkChild_runTrace v al s1 log1)
        (fun s2 log2 => walkChild_runTrace v coldeflist s2 log2))
  | .rangeTableSample relation args repeatable _, s, log =>
    seqTrace v _ _ _ _ s log (walkChild_runTrace v relation s log)
      (fun s1 log1 => seqTrace v _ _ _ _ s1 log1 (walkChild_runTrace v args s1 log1)
        (fun s2 log2 => walkChild_runTrace v repeatable s2 log2))
  | .rangeTableFunc docexpr rowexpr namespaces columns al, s, log =>
    seqTrace v _ _ _ _ s log (walkChild_runTrace v docexpr s log)
      (fun s1 log1 => seqTrace v _ _ _ _ s1 log1 (walkChild_runTrace v rowexpr s1 log1)
        (fun s2 log2 => seqTrace v _ _ _ _ s2 log2 (walkChild_runTrace v namespaces s2 log2)
          (fun s3 log3 => seqTrace v _ _ _ _ s3 log3 (walkChild_runTrace v columns s3 log3)
            (fun s4 log4 => walkChild_runTrace v al s4 log4))))
  | .rangeTableFuncCol colexpr coldefexpr, s, log =>
    seqTrace v _ _ _ _ s log (walkChild_runTrace v colexpr s log)
      (fun s1 log1 => walkChild_runTrace v coldefexpr s1 log1)
  | .typeName typmods arrayBounds _, s, log =>
    seqTrace v _ _ _ _ s log (walkChild_runTrace v typmods s log)
      (fun s1 log1 => walkChild_runTrace v arrayBounds s1 log1)
  | .columnDef typeName rawDefault collClause _, s, log =>
    seqTrace v _ _ _ _ s log (walkChild_runTrace v typeName s log)
      (fun s1 log1 => seqTrace v _ _ _ _ s1 log1 (walkChild_runTrace v rawDefault s1 log1)
        (fun s2 log2 => walkChild_runTrace v collClause s2 log2))
  | .indexElem expr, s, log => walkChild_runTrace v expr s log
  | .groupingSet content _, s, log => walkChild_runTrace v content s log
  | .lockingClause lockedRels, s, log => walkChild_runTrace v lockedRels s log
  | .xmlSerialize expr typeName _, s, log =>
    seqTrace v _ _ _ _ s log (walkChild_runTrace v expr s log)
      (fun s1 log1 => walkChild_runTrace v typeName s1 log1)
  | .withClause ctes _, s, log => walkChild_runTrace v ctes s log
  | .inferClause indexElems whereClause _, s, log =>
    seqTrace v _ _ _ _ s log (walkChild_runTrace v indexElems s log)
      (fun s1 log1 => walkChild_runTrace v whereClause s1 log1)
  | .onConflictClause infer targetList whereClause _, s, log =>
    seqTrace v _ _ _ _ s log (walkChild_runTrace v infer s log)
      (fun s1 log1 => seqTrace v _ _ _ _ s1 log1 (walkChild_runTrace v targetList s1 log1)
        (fun s2 log2 => walkChild_runTrace v whereClause s2 log2))
  | .commonTableExpr ctequery _ _ _, s, log => walkChild_runTrace v ctequery s log
  | .jsonOutput typeName returning, s, log =>
    seqTrace v _ _ _ _ s log (walkChild_runTrace v typeName s log)
      (fun s1 log1 => walkChild_runTrace v returning s1 log1)
  | .jsonKeyValue key value, s, log =>
    seqTrace v _ _ _ _ s log (walkChild_runTrace v key s log)
      (fun s1 log1 => walkChild_runTrace v value s1 log1)
  | .jsonObjectConstructor output exprs _, s, log =>
    seqTrace v _ _ _ _ s log (walkChild_runTrace v output s log)
      (fun s1 log1 => walkChild_runTrace v exprs s1 log1)
  | .jsonArrayConstructor output exprs _, s, log =>
    seqTrace v _ _ _ _ s log (walkChild_runTrace v output s log)
      (fun s1 log1 => walkChild_runTrace v exprs s1 log1)
  | .jsonAggConstructor output aggOrder aggFilter over _, s, log =>
    seqTrace v _ _ _ _ s log (walkChild_runTrace v output s log)
      (fun s1 log1 => seqTrace v _ _ _ _ s1 log1 (walkChild_runTrace v aggOrder s1 log1)
        (fun s2 log2 => seqTrace v _ _ _ _ s2 log2 (walkChild_runTrace v aggFilter s2 log2)
          (fun s3 log3 => walkChild_runTrace v over s3 log3)))
  | .jsonObjectAgg ctor arg, s, log =>
    seqTrace v _ _ _ _ s log (walkChild_runTrace v ctor s log)
      (fun s1 log1 => walkChild_runTrace v arg s1 log1)
  | .jsonArrayAgg ctor arg, s, log =>
    seqTrace v _ _ _ _ s log (walkChild_runTrace v ctor s log)
      (fun s1 log1 => walkChild_runTrace v arg s1 log1)
  | .jsonArrayQueryConstructor output query _, s, log =>
    seqTrace v _ _ _ _ s log (walkChild_runTrace v output s log)
      (fun s1 log1 => walkChild_runTrace v query s1 log1)
  | .var _, _, _ => rfl
  | .const _, _, _ => rfl
  | .param _, _, _ => rfl
  | .aggref _, _, _ => rfl
  | .windowFunc _, _, _ => rfl
  | .tableFunc _, _, _ => rfl
  | .subscriptingRef _, _, _ => rfl
  | .funcExpr _ _, _, _ => rfl
  | .opExpr _ _, _, _ => rfl
  | .distinctExpr _ _, _, _ => rfl
  | .nullIfExpr _ _, _, _ => rfl
  | .scalarArrayOpExpr _ _, _, _ => rfl
  | .fieldSelect _, _, _ => rfl
  | .fieldStore _, _, _ => rfl
  | .relabelType _ _, _, _ => rfl
  | .coerceViaIo _ _, _, _ => rfl
  | .arrayCoerceExpr _ _, _, _ => rfl
  | .convertRowtypeExpr _ _, _, _ => rfl
  | .collateExpr _, _, _ => rfl
  | .caseWhen _ _ _, _, _ => rfl
  | .arrayExpr _, _, _ => rfl
  | .rowCompareExpr _, _, _ => rfl
  | .coerceToDomain _ _, _, _ => rfl
  | .coerceToDomainValue _, _, _ => rfl
  | .targetEntry _, _, _ => rfl
  | .placeHolderVar _, _, _ => rfl
  | .inferenceElem _, _, _ => rfl
  | .cteSearchClause _, _, _ => rfl
  | .cteCycleClause _, _, _ => rfl
  | .constraint _, _, _ => rfl
  | .functionParameter _, _, _ => rfl
  | .partitionElem _, _, _ => rfl
  | .partitionSpec _, _, _ => rfl
  | .partitionBoundSpec _, _, _ => rfl
  | .partitionRangeDatum _, _, _ => rfl

/-- WALK on a child pointer is the reference semantics run on its event
list. -/
theorem walkChild_runTrace {σ : Type} (v : Node → σ → Bool × σ) :
    ∀ (c : Option Node) (s : σ) (log : List Tag),
      walkChild v c s log = runTrace v (traceChild c) s log
  | none, _, _ => rfl
  | some m, s, log => by
    rw [walkChild, traceChild, runTrace]
    cases v m s with
    | mk b1 s1 =>
      cases b1 with
      | true => rfl
      | false => exact walker_runTrace v m s1 log

/-- The T_List loop is the reference semantics run on its event list. -/
theorem walkMembers_runTrace {σ : Type} (v : Node → σ → Bool × σ) :
    ∀ (l : List (Option Node)) (s : σ) (log : List Tag),
      walkMembers v l s log = runTrace v (traceMembers l) s log
  | [], _, _ => rfl
  | x :: rest, s, log =>
    seqTrace v _ _ _ _ s log (walkChild_runTrace v x s log)
      (fun s1 log1 => walkMembers_runTrace v rest s1 log1)

/-- The CaseExpr whens loop is the reference semantics run on its event
list. -/
theorem walkWhens_runTrace {σ : Type} (v : Node → σ → Bool × σ) :
    ∀ (c : Option Node) (s : σ) (log : List Tag),
      walkWhens v c s log = runTrace v (traceWhens c) s log
  | none, _, _ => rfl
  | some m, s, log => by
    cases m with
    | list ws => exact walkWhenList_runTrace v ws s log
    | _ => rfl

theorem walkWhenList_runTrace {σ : Type} (v : Node → σ → Bool × σ) :
    ∀ (l : List (Option Node)) (s : σ) (log : List Tag),
      walkWhenList v l s log = runTrace v (traceWhenList l) s log
  | [], _, _ => rfl
  | w :: rest, s, log =>
    seqTrace v _ _ _ _ s log (walkWhenOne_runTrace v w s log)
      (fun s1 log1 => walkWhenList_runTrace v rest s1 log1)

theorem walkWhenOne_runTrace {σ : Type} (v : Node → σ → Bool × σ) :
    ∀ (w : Option Node) (s : σ) (log : List Tag),
      walkWhenOne v w s log = runTrace v (traceWhenOne w) s log
  | none, _, _ => rfl
  | some m, s, log => by
    cases m with
    | caseWhen expr result loc =>
      exact seqTrace v _ _ _ _ s log (walkChild_runTrace v expr s log)
        (fun s1 log1 => walkChild_runTrace v result s1 log1)
    | _ => rfl

end

theorem visitsOf_nil : visitsOf [] = [] := rfl

theorem visitsOf_visit (n : Node) (rest : List Item) :
    visitsOf (.visit n :: rest) = n :: visitsOf rest := rfl

theorem visitsOf_notice (t : Tag) (rest : List Item) :
    visitsOf (.notice t :: rest) = visitsOf rest := rfl

theorem noticesOf_nil : noticesOf [] = [] := rfl

theorem noticesOf_visit (n : Node) (rest : List Item) :
    noticesOf (.visit n :: rest) = noticesOf rest := rfl

theorem noticesOf_notice (t : Tag) (rest : List Item) :
    noticesOf (.notice t :: rest) = t :: noticesOf rest := rfl

/-- Running the recording, never-stopping visitor over an event list appends
exactly the visited nodes to the record and the noticed tags to the log. -/
theorem runTrace_visitLogger :
    ∀ (items : List Item) (acc : List Node) (log : List Tag),
      runTrace visitLogger items acc log = (false, acc ++ visitsOf items, log ++ noticesOf items)
  | [], acc, log => by simp [runTrace, visitsOf_nil, noticesOf_nil]
  | .visit n :: rest, acc, log => by
    show runTrace visitLogger rest (acc ++ [n]) log = _
    rw [runTrace_visitLogger rest (acc ++ [n]) log, visitsOf_visit, noticesOf_visit]
    simp
  | .notice t :: rest, acc, log => by
    show runTrace visitLogger rest acc (log ++ [t]) = _
    rw [runTrace_visitLogger rest acc (log ++ [t]), visitsOf_notice, noticesOf_notice]
    simp

/-- For a pure (stateless) predicate visitor, a run of an event list stops
with `true` exactly when some visited node satisfies the predicate. -/
theorem runTrace_any (p : Node → Bool) :
    ∀ (items : List Item) (log : List Tag),
      (runTrace (fun m (_ : Unit) => (p m, ())) items () log).1 = (visitsOf items).any p
  | [], log => by simp [runTrace, visitsOf_nil]
  | .visit n :: rest, log => by
    simp only [runTrace]
    cases hp : p n with
    | true => simp [visitsOf_visit, hp]
    | false => simp [visitsOf_visit, hp, runTrace_any p rest log]
  | .notice t :: rest, log => by
    simp only [runTrace]
    rw [visitsOf_notice]
    exact runTrace_any p rest (log ++ [t])

theorem exprLocationList_singleton (x : Option Node) :
    exprLocationList [x] = exprLocation x := by
  show (if 0 ≤ exprLocation x then exprLocation x else exprLocation x) = exprLocation x
  split <;> rfl

theorem exprLocationList_cons_neg {x : Option Node} (hx : exprLocation x < 0)
    (y : Option Node) (r : List (Option Node)) :
    exprLocationList (x :: y :: r) = exprLocationList (y :: r) := by
  show (if 0 ≤ exprLocation x then exprLocation x else exprLocationList (y :: r))
      = exprLocationList (y :: r)
  rw [if_neg (by omega)]

theorem exprLocationList_cons_pos {x : Option Node} (hx : 0 ≤ exprLocation x) :
    ∀ r : List (Option Node), exprLocationList (x :: r) = exprLocation x
  | [] => exprLocationList_singleton x
  | y :: rest => by
    show (if 0 ≤ exprLocation x then exprLocation x else exprLocationList (y :: rest))
        = exprLocation x
    rw [if_pos hx]

/-- C1, as stated (every node reachable from the start node is visited
exactly once), is false: in `exampleCase` the CaseWhen node `exampleWhen` is
reachable (through the CaseWhen list field) but the walker never invokes the
visitor on it - it only walks the CaseWhen's expr and result fields. -/
theorem claim_C1_counterexample :
    reachableFrom exampleCase exampleWhen ∧ exampleWhen ∉ visitLog exampleCase := by
  constructor
  · refine @Relation.TransGen.tail Node childOf exampleCase
      (Node.list [some exampleWhen]) exampleWhen (Relation.TransGen.single ?_) ?_
    · show Node.list [some exampleWhen] ∈ children exampleCase
      rw [show children exampleCase = [Node.list [some exampleWhen]] from rfl]
      exact List.mem_singleton.mpr rfl
    · show exampleWhen ∈ children (Node.list [some exampleWhen])
      rw [show children (Node.list [some exampleWhen]) = [exampleWhen] from rfl]
      exact List.mem_singleton.mpr rfl
  · rw [show visitLog exampleCase = [Node.columnRef none 1, Node.aConst false 3] from rfl]
    simp [exampleWhen]

/-- C1 (amended): for every start node, the walker invokes the visitor
exactly once on each node reachable through the per-kind walked fields, in
the fixed left-to-right, depth-first order `walkVisits` - the record of a
full traversal is exactly that list, and the notices are exactly
`walkNotices`.  (Nodes stored only in skipped fields - CaseWhen wrappers and
CaseExpr's list of them, CTE search/cycle clauses, column-name/operator-name
lists - are reachable but not visited, which is what corrects C1.) -/
theorem claim_C1_walk_order (n : Node) (acc : List Node) (log : List Tag) :
    raw_expression_tree_walker_impl visitLogger n acc log
      = (false, acc ++ walkVisits n, log ++ walkNotices n) := by
  rw [walker_runTrace]
  exact runTrace_visitLogger (walkTrace n) acc log

/-- C2, as stated for every integer x, is false: the code returns `loc2`
whenever `loc1 < 0`, so `leftmostLoc (-2) (-1)` is `-1`, not `-2`. -/
theorem claim_C2_counterexample :
    leftmostLoc (-2) (-1) = -1 ∧ leftmostLoc (-2) (-1) ≠ -2 := by
  constructor <;> decide

/-- C2 (amended): `-1` is a left identity of `leftmostLoc` for every integer,
a right identity for every valid location (x = -1 or x ≥ 0), and on
non-negative pairs `leftmostLoc` is `min`; the unknown sentinel never wins
as a false minimum. -/
theorem claim_C2_leftmostLoc :
    (∀ x : Int, leftmostLoc (-1) x = x) ∧
    (∀ x : Int, -1 ≤ x → leftmostLoc x (-1) = x) ∧
    (∀ a b : Int, 0 ≤ a → 0 ≤ b → leftmostLoc a b = min a b) := by
  refine ⟨fun x => ?_, fun x hx => ?_, fun a b ha hb => ?_⟩
  · simp [leftmostLoc]
  · unfold leftmostLoc
    split_ifs <;> omega
  · unfold leftmostLoc
    split_ifs with h1 h2
    · omega
    · omega
    · rfl

theorem claim_C2_witness : leftmostLoc 7 (-1) = 7 ∧ leftmostLoc 3 5 = 3 :=
  ⟨claim_C2_leftmostLoc.2.1 7 (by decide),
   (claim_C2_leftmostLoc.2.2 3 5 (by decide) (by decide)).trans (by decide)⟩

/-- C3, as stated, is false for the a-star/a-expr entry of the group: a
generic parsed expression node (A_Expr) with stored location 5 and a left
operand at offset 2 resolves to 2, not to its own field 5 - A_Expr combines
rather than returning the field verbatim. -/
theorem claim_C3_counterexample :
    exprLocation (some (.aExpr (some (.columnRef none 2)) none 5)) = 2 ∧ (2 : Int) ≠ 5 := by
  constructor
  · rfl
  · decide

/-- C3 (amended): every node kind of the spec's explicit-location-field
group returns its stored location field verbatim, except the kinds the code
treats otherwise: A_Star stores no location and resolves to -1; A_Expr
combines its own location with the left operand's (claim C6); null tests,
boolean tests and the domain coercion CoerceToDomain combine their own
location with the argument's via leftmostLoc (a stored location 5 over an
argument at 2 resolves to 2); and a function parameter forwards to its
contained type name's resolved location, with no own field.  One conjunct
per kind, over all field values. -/
theorem claim_C3_explicit_locations :
    (∀ al loc, exprLocation (some (.rangeVar al loc)) = loc) ∧
    (∀ loc, exprLocation (some (.tableFunc loc)) = loc) ∧
    (∀ loc, exprLocation (some (.var loc)) = loc) ∧
    (∀ loc, exprLocation (some (.const loc)) = loc) ∧
    (∀ loc, exprLocation (some (.param loc)) = loc) ∧
    (∀ loc, exprLocation (some (.aggref loc)) = loc) ∧
    (∀ args loc, exprLocation (some (.groupingFunc args loc)) = loc) ∧
    (∀ loc, exprLocation (some (.windowFunc loc)) = loc) ∧
    (∀ arg args defresult loc, exprLocation (some (.caseExpr arg args defresult loc)) = loc) ∧
    (∀ expr result loc, exprLocation (some (.caseWhen expr result loc)) = loc) ∧
    (∀ loc, exprLocation (some (.arrayExpr loc)) = loc) ∧
    (∀ args loc, exprLocation (some (.rowExpr args loc)) = loc) ∧
    (∀ args loc, exprLocation (some (.coalesceExpr args loc)) = loc) ∧
    (∀ args loc, exprLocation (some (.minMaxExpr args loc)) = loc) ∧
    (∀ loc, exprLocation (some (.sqlValueFunction loc)) = loc) ∧
    (∀ loc, exprLocation (some (.jsonFormat loc)) = loc) ∧
    (∀ args func coercion returning loc,
        exprLocation (some (.jsonConstructorExpr args func coercion returning loc)) = loc) ∧
    (∀ expr loc, exprLocation (some (.jsonIsPredicate expr loc)) = loc) ∧
    (∀ loc, exprLocation (some (.coerceToDomainValue loc)) = loc) ∧
    (∀ loc, exprLocation (some (.setToDefault loc)) = loc) ∧
    (∀ fields loc, exprLocation (some (.columnRef fields loc)) = loc) ∧
    (∀ number loc, exprLocation (some (.paramRef number loc)) = loc) ∧
    (∀ isnull loc, exprLocation (some (.aConst isnull loc)) = loc) ∧
    (∀ elements loc, exprLocation (some (.aArrayExpr elements loc)) = loc) ∧
    (∀ ind val loc, exprLocation (some (.resTarget ind val loc)) = loc) ∧
    (∀ pc oc so eo loc, exprLocation (some (.windowDef pc oc so eo loc)) = loc) ∧
    (∀ rel args rep loc, exprLocation (some (.rangeTableSample rel args rep loc)) = loc) ∧
    (∀ tm ab loc, exprLocation (some (.typeName tm ab loc)) = loc) ∧
    (∀ tn rd cc loc, exprLocation (some (.columnDef tn rd cc loc)) = loc) ∧
    (∀ loc, exprLocation (some (.constraint loc)) = loc) ∧
    (∀ expr tn loc, exprLocation (some (.xmlSerialize expr tn loc)) = loc) ∧
    (∀ content loc, exprLocation (some (.groupingSet content loc)) = loc) ∧
    (∀ ctes loc, exprLocation (some (.withClause ctes loc)) = loc) ∧
    (∀ ie wc loc, exprLocation (some (.inferClause ie wc loc)) = loc) ∧
    (∀ inf tl wc loc, exprLocation (some (.onConflictClause inf tl wc loc)) = loc) ∧
    (∀ loc, exprLocation (some (.cteSearchClause loc)) = loc) ∧
    (∀ loc, exprLocation (some (.cteCycleClause loc)) = loc) ∧
    (∀ q sc cc loc, exprLocation (some (.commonTableExpr q sc cc loc)) = loc) ∧
    (∀ out exprs loc, exprLocation (some (.jsonObjectConstructor out exprs loc)) = loc) ∧
    (∀ out exprs loc, exprLocation (some (.jsonArrayConstructor out exprs loc)) = loc) ∧
    (∀ out query loc, exprLocation (some (.jsonArrayQueryConstructor out query loc)) = loc) ∧
    (∀ out ao af ov loc, exprLocation (some (.jsonAggConstructor out ao af ov loc)) = loc) ∧
    (∀ loc, exprLocation (some (.partitionElem loc)) = loc) ∧
    (∀ loc, exprLocation (some (.partitionSpec loc)) = loc) ∧
    (∀ loc, exprLocation (some (.partitionBoundSpec loc)) = loc) ∧
    (∀ loc, exprLocation (some (.partitionRangeDatum loc)) = loc) ∧
    (exprLocation (some .aStar) = -1) ∧
    (∀ lexpr rexpr loc,
        exprLocation (some (.aExpr lexpr rexpr loc)) = leftmostLoc loc (exprLocation lexpr)) ∧
    (∀ arg loc, exprLocation (some (.nullTest arg loc)) = leftmostLoc loc (exprLocation arg)) ∧
    (∀ arg loc, exprLocation (some (.booleanTest arg loc)) = leftmostLoc loc (exprLocation arg)) ∧
    (∀ arg loc, exprLocation (some (.coerceToDomain arg loc)) = leftmostLoc loc (exprLocation arg)) ∧
    (∀ argType, exprLocation (some (.functionParameter argType)) = exprLocation argType) ∧
    (exprLocation (some (.nullTest (some (.columnRef none 2)) 5)) = 2) :=
  ⟨fun _ _ => rfl, fun _ => rfl, fun _ => rfl, fun _ => rfl, fun _ => rfl, fun _ => rfl,
   fun _ _ => rfl, fun _ => rfl, fun _ _ _ _ => rfl, fun _ _ _ => rfl, fun _ => rfl,
   fun _ _ => rfl, fun _ _ => rfl, fun _ _ => rfl, fun _ => rfl, fun _ => rfl,
   fun _ _ _ _ _ => rfl, fun _ _ => rfl, fun _ => rfl, fun _ => rfl, fun _ _ => rfl,
   fun _ _ => rfl, fun _ _ => rfl, fun _ _ => rfl, fun _ _ _ => rfl, fun _ _ _ _ _ => rfl,
   fun _ _ _ _ => rfl, fun _ _ _ => rfl, fun _ _ _ _ => rfl, fun _ => rfl,
   fun _ _ _ => rfl, fun _ _ => rfl, fun _ _ => rfl, fun _ _ _ => rfl, fun _ _ _ _ => rfl,
   fun _ => rfl, fun _ => rfl, fun _ _ _ _ => rfl, fun _ _ _ => rfl, fun _ _ _ => rfl,
   fun _ _ _ => rfl, fun _ _ _ _ _ => rfl, fun _ => rfl, fun _ => rfl, fun _ => rfl,
   fun _ => rfl, rfl, fun _ _ _ => rfl, fun _ _ => rfl, fun _ _ => rfl, fun _ _ => rfl,
   fun _ => rfl, by decide⟩

/-- C4 (confirmed): on any node kind without an arm in the walker's switch,
the walker reports a notice naming the kind, treats the node as childless
(the visitor is never invoked and the state is returned unchanged, for every
visitor), and returns false - it returns normally rather than terminating. -/
theorem claim_C4_unrecognized {σ : Type} (v : Node → σ → Bool × σ) :
    ∀ (n : Node) (s : σ) (log : List Tag), rawWalkerHandles n = false →
      raw_expression_tree_walker_impl v n s log = (false, s, log ++ [nodeTag n])
  | .var _, _, _, _ => rfl
  | .const _, _, _, _ => rfl
  | .param _, _, _, _ => rfl
  | .aggref _, _, _, _ => rfl
  | .windowFunc _, _, _, _ => rfl
  | .tableFunc _, _, _, _ => rfl
  | .subscriptingRef _, _, _, _ => rfl
  | .funcExpr _ _, _, _, _ => rfl
  | .opExpr _ _, _, _, _ => rfl
  | .distinctExpr _ _, _, _, _ => rfl
  | .nullIfExpr _ _, _, _, _ => rfl
  | .scalarArrayOpExpr _ _, _, _, _ => rfl
  | .fieldSelect _, _, _, _ => rfl
  | .fieldStore _, _, _, _ => rfl
  | .relabelType _ _, _, _, _ => rfl
  | .coerceViaIo _ _, _, _, _ => rfl
  | .arrayCoerceExpr _ _, _, _, _ => rfl
  | .convertRowtypeExpr _ _, _, _, _ => rfl
  | .collateExpr _, _, _, _ => rfl
  | .caseWhen _ _ _, _, _, _ => rfl
  | .arrayExpr _, _, _, _ => rfl
  | .rowCompareExpr _, _, _, _ => rfl
  | .coerceToDomain _ _, _, _, _ => rfl
  | .coerceToDomainValue _, _, _, _ => rfl
  | .targetEntry _, _, _, _ => rfl
  | .placeHolderVar _, _, _, _ => rfl
  | .inferenceElem _, _, _, _ => rfl
  | .cteSearchClause _, _, _, _ => rfl
  | .cteCycleClause _, _, _, _ => rfl
  | .constraint _, _, _, _ => rfl
  | .functionParameter _, _, _, _ => rfl
  | .partitionElem _, _, _, _ => rfl
  | .partitionSpec _, _, _, _ => rfl
  | .partitionBoundSpec _, _, _, _ => rfl
  | .partitionRangeDatum _, _, _, _ => rfl
  | .jsonFormat _, _, _, h => Bool.noConfusion h
  | .setToDefault _, _, _, h => Bool.noConfusion h
  | .currentOfExpr _, _, _, h => Bool.noConfusion h
  | .sqlValueFunction _, _, _, h => Bool.noConfusion h
  | .integerVal _, _, _, h => Bool.noConfusion h
  | .floatVal _, _, _, h => Bool.noConfusion h
  | .booleanVal _, _, _, h => Bool.noConfusion h
  | .stringVal _, _, _, h => Bool.noConfusion h
  | .bitString _, _, _, h => Bool.noConfusion h
  | .paramRef _ _, _, _, h => Bool.noConfusion h
  | .aConst _ _, _, _, h => Bool.noConfusion h
  | .aStar, _, _, h => Bool.noConfusion h
  | .aliasNode _ _, _, _, h => Bool.noConfusion h
  | .rangeVar _ _, _, _, h => Bool.noConfusion h
  | .groupingFunc _ _, _, _, h => Bool.noConfusion h
  | .subLink _ _ _ _, _, _, h => Bool.noConfusion h
  | .caseExpr _ _ _ _, _, _, h => Bool.noConfusion h
  | .rowExpr _ _, _, _, h => Bool.noConfusion h
  | .coalesceExpr _ _, _, _, h => Bool.noConfusion h
  | .minMaxExpr _ _, _, _, h => Bool.noConfusion h
  | .xmlExpr _ _ _, _, _, h => Bool.noConfusion h
  | .jsonReturning _, _, _, h => Bool.noConfusion h
  | .jsonValueExpr _ _ _, _, _, h => Bool.noConfusion h
  | .jsonConstructorExpr _ _ _ _ _, _, _, h => Bool.noConfusion h
  | .jsonIsPredicate _ _, _, _, h => Bool.noConfusion h
  | .nullTest _ _, _, _, h => Bool.noConfusion h
  | .booleanTest _ _, _, _, h => Bool.noConfusion h
  | .joinExpr _ _ _ _, _, _, h => Bool.noConfusion h
  | .intoClause _ _, _, _, h => Bool.noConfusion h
  | .list _, _, _, h => Bool.noConfusion h
  | .insertStmt _ _ _ _ _ _, _, _, h => Bool.noConfusion h
  | .deleteStmt _ _ _ _ _, _, _, h => Bool.noConfusion h
  | .updateStmt _ _ _ _ _ _, _, _, h => Bool.noConfusion h
  | .mergeStmt _ _ _ _ _, _, _, h => Bool.noConfusion h
  | .mergeWhenClause _ _ _, _, _, h => Bool.noConfusion h
  | .selectStmt _ _ _ _ _ _ _ _ _ _ _ _ _ _ _ _, _, _, h => Bool.noConfusion h
  | .plAssignStmt _ _, _, _, h => Bool.noConfusion h
  | .aExpr _ _ _, _, _, h => Bool.noConfusion h
  | .boolExpr _ _, _, _, h => Bool.noConfusion h
  | .columnRef _ _, _, _, h => Bool.noConfusion h
  | .funcCall _ _ _ _ _, _, _, h => Bool.noConfusion h
  | .namedArgExpr _ _, _, _, h => Bool.noConfusion h
  | .aIndices _ _, _, _, h => Bool.noConfusion h
  | .aIndirection _ _, _, _, h => Bool.noConfusion h
  | .aArrayExpr _ _, _, _, h => Bool.noConfusion h
  | .resTarget _ _ _, _, _, h => Bool.noConfusion h
  | .multiAssignRef _, _, _, h => Bool.noConfusion h
  | .typeCast _ _ _, _, _, h => Bool.noConfusion h
  | .collateClause _, _, _, h => Bool.noConfusion h
  | .sortBy _, _, _, h => Bool.noConfusion h
  | .windowDef _ _ _ _ _, _, _, h => Bool.noConfusion h
  | .rangeSubselect _ _, _, _, h => Bool.noConfusion h
  | .rangeFunction _ _ _, _, _, h => Bool.noConfusion h
  | .rangeTableSample _ _ _ _, _, _, h => Bool.noConfusion h
  | .rangeTableFunc _ _ _ _ _, _, _, h => Bool.noConfusion h
  | .rangeTableFuncCol _ _, _, _, h => Bool.noConfusion h
  | .typeName _ _ _, _, _, h => Bool.noConfusion h
  | .columnDef _ _ _ _, _, _, h => Bool.noConfusion h
  | .indexElem _, _, _, h => Bool.noConfusion h
  | .groupingSet _ _, _, _, h => Bool.noConfusion h
  | .lockingClause _, _, _, h => Bool.noConfusion h
  | .xmlSerialize _ _ _, _, _, h => Bool.noConfusion h
  | .withClause _ _, _, _, h => Bool.noConfusion h
  | .inferClause _ _ _, _, _, h => Bool.noConfusion h
  | .onConflictClause _ _ _ _, _, _, h => Bool.noConfusion h
  | .commonTableExpr _ _ _ _, _, _, h => Bool.noConfusion h
  | .jsonOutput _ _, _, _, h => Bool.noConfusion h
  | .jsonKeyValue _ _, _, _, h => Bool.noConfusion h
  | .jsonObjectConstructor _ _ _, _, _, h => Bool.noConfusion h
  | .jsonArrayConstructor _ _ _, _, _, h => Bool.noConfusion h
  | .jsonAggConstructor _ _ _ _ _, _, _, h => Bool.noConfusion h
  | .jsonObjectAgg _ _, _, _, h => Bool.noConfusion h
  | .jsonArrayAgg _ _, _, _, h => Bool.noConfusion h
  | .jsonArrayQueryConstructor _ _ _, _, _, h => Bool.noConfusion h

theorem claim_C4_witness :
    rawWalkerHandles (.partitionElem 7) = false ∧
    raw_expression_tree_walker_impl visitLogger (.partitionElem 7) [] []
      = (false, [], [Tag.partitionElem]) :=
  ⟨rfl, claim_C4_unrecognized visitLogger (.partitionElem 7) [] [] rfl⟩

/-- C5 (confirmed): the walker equals the stop-at-first-true linear run of
its event list - it propagates `true` as soon as the visitor returns true
and visits nothing further (`runTrace` by definition applies the visitor to
the events in order and stops the whole run at the first `true`); and for a
pure predicate visitor the walker returns true exactly when some visited
node satisfies the predicate, hence false iff no invocation returned true. -/
theorem claim_C5_early_stop :
    (∀ (σ : Type) (v : Node → σ → Bool × σ) (n : Node) (s : σ) (log : List Tag),
        raw_expression_tree_walker_impl v n s log = runTrace v (walkTrace n) s log) ∧
    (∀ (p : Node → Bool) (n : Node) (log : List Tag),
        (raw_expression_tree_walker_impl (fun m (_ : Unit) => (p m, ())) n () log).1
          = (walkVisits n).any p) :=
  ⟨fun _ v n s log => walker_runTrace v n s log,
   fun p n log => by rw [walker_runTrace]; exact runTrace_any p (walkTrace n) log⟩

/-- C6 (confirmed): a generic parsed binary/unary expression resolves to the
leftmost of its own location and its left operand's resolved location, for
every right operand (which is never consulted); in particular, for
`a + b` with `a` at offset 0, `+` at 2 and `b` at 4, the A_Expr node
resolves to 0, the offset of `a`. -/
theorem claim_C6_aExpr_location :
    (∀ (lexpr rexpr : Option Node) (loc : Int),
        exprLocation (some (.aExpr lexpr rexpr loc)) = leftmostLoc loc (exprLocation lexpr)) ∧
    exprLocation (some (.aExpr (some (.columnRef none 0)) (some (.columnRef none 4)) 2)) = 0 :=
  ⟨fun _ _ _ => rfl, by decide⟩

/-- C7 (confirmed): an ordered sequence resolves to the resolved location of
its first member whose resolved location is known (every earlier member
resolving below 0), to -1 when empty, and to -1 when every member resolves
to the unknown sentinel; in particular `[absent, absent, N]` resolves
exactly as `N` does. -/
theorem claim_C7_list_location :
    (exprLocation (some (.list [])) = -1) ∧
    (∀ xs : List (Option Node), (∀ x ∈ xs, exprLocation x = -1) →
        exprLocation (some (.list xs)) = -1) ∧
    (∀ (ys : List (Option Node)) (x : Option Node) (zs : List (Option Node)),
        (∀ y ∈ ys, exprLocation y < 0) → 0 ≤ exprLocation x →
        exprLocation (some (.list (ys ++ x :: zs))) = exprLocation x) ∧
    (∀ m : Node, exprLocation (some (.list [none, none, some m])) = exprLocation (some m)) := by
  refine ⟨rfl, ?_, ?_, ?_⟩
  · intro xs
    induction xs with
    | nil => intro _; rfl
    | cons x rest ih =>
      intro h
      have hx : exprLocation x = -1 := h x (List.mem_cons_self x rest)
      show exprLocationList (x :: rest) = -1
      cases rest with
      | nil => rw [exprLocationList_singleton]; exact hx
      | cons y r2 =>
        rw [exprLocationList_cons_neg (by omega) y r2]
        exact ih (fun z hz => h z (List.mem_cons_of_mem x hz))
  · intro ys x zs
    induction ys with
    | nil =>
      intro _ hx
      exact exprLocationList_cons_pos hx zs
    | cons y ys2 ih =>
      intro h hx
      have hy : exprLocation y < 0 := h y (List.mem_cons_self y ys2)
      show exprLocationList (y :: (ys2 ++ x :: zs)) = exprLocation x
      have step : exprLocationList (y :: (ys2 ++ x :: zs)) = exprLocationList (ys2 ++ x :: zs) := by
        cases hys : ys2 ++ x :: zs with
        | nil => simp at hys
        | cons a b => exact exprLocationList_cons_neg hy a b
      rw [step]
      exact ih (fun z hz => h z (List.mem_cons_of_mem y hz)) hx
  · intro m
    show exprLocationList [none, none, some m] = exprLocation (some m)
    rw [exprLocationList_cons_neg (by decide) none [some m],
        exprLocationList_cons_neg (by decide) (some m) [],
        exprLocationList_singleton]

theorem claim_C7_witness :
    exprLocation (some (.list [none, some (.aConst false 4)])) = 4 ∧
    exprLocation (some (.list [none, none])) = -1 := by
  constructor
  · have := claim_C7_list_location.2.2.1 [none] (some (.aConst false 4)) []
      (by decide) (by decide)
    simpa using this
  · exact claim_C7_list_location.2.1 [none, none] (by decide)

/-- C8 (confirmed): a type-cast node resolves to the leftmost (with -1 as
identity) of the casted expression's resolved location, the contained type
name's stored location, and the node's own location, combined exactly as
the code does: leftmostLoc (leftmostLoc (arg) (typeName)) (own). -/
theorem claim_C8_typeCast_location (arg : Option Node) (typmods arrayBounds : Option Node)
    (tloc loc : Int) :
    exprLocation (some (.typeCast arg (some (.typeName typmods arrayBounds tloc)) loc))
      = leftmostLoc (leftmostLoc (exprLocation arg) tloc) loc := rfl

/-- C9 (confirmed against the spec model): for every embedded grammar and
options value, parsing the empty input string yields the empty statement
sequence and no error. -/
theorem claim_C9_empty_input
    (rawParser : String → Int → Except PgQueryError (List (Option Node)) × String)
    (parser_options : Int) :
    (pg_query_raw_parse rawParser "" parser_options).tree = [] ∧
    (pg_query_raw_parse rawParser "" parser_options).error = none := by
  constructor <;> simp [pg_query_raw_parse]

/-- C10 (confirmed): on a ColumnRef and on an Alias the walker returns false
with the visitor never invoked (state unchanged for every visitor) and no
notice emitted - their sub-fields are silently skipped, with no
unrecognized-kind diagnostic. -/
theorem claim_C10_columnRef_alias {σ : Type} (v : Node → σ → Bool × σ)
    (fields colnames : Option Node) (nm : String) (loc : Int) (s : σ) (log : List Tag) :
    raw_expression_tree_walker_impl v (.columnRef fields loc) s log = (false, s, log) ∧
    raw_expression_tree_walker_impl v (.aliasNode nm colnames) s log = (false, s, log) :=
  ⟨rfl, rfl⟩
